import Mathlib

/-!
Verification of the streaming itinerary-generation pipeline of the travelAI
backend (`backend/app/services/travel_service.py`).

The development shallowly embeds the pipeline:

* a JSON value type and a parser modelling the parts of Python's `json`
  module used by the service (`json.loads`, `JSONDecoder.raw_decode`);
  JSON numbers are modelled as exact rationals (decimal literals without
  exponents); this covers every input exercised below,
* `_parse_itinerary_response` with its fallback chain,
* the per-day anchor-point derivation `_get_day_start_end_points` together
  with the coordinate backfill helpers `_geocode_accommodation`,
  `_geocode_flight` and `_ensure_lat_lng`,
* the per-day item normalization, stats block and fallback synthesis that
  feed each `day` event (including the exact control flow of the
  mis-indented segment loop of the source),
* the stream orchestrator `generate_itinerary_stream` as a function from
  collaborator oracles to the list of emitted SSE frames.

Python conventions are modelled explicitly: optional numbers are
`Option ℚ` with `none` for `None`, truthiness of numbers treats `0` as
false, `a or b` is the truthiness-based choice, dates are day ordinals
(`Int`) after `_to_date` normalization.
-/

namespace TravelAI

/-- Whitespace characters of Python's `str.strip` / `re` `\s`
    (ASCII subset: space, tab, newline, carriage return, vertical tab,
    form feed). -/
def isPyWs (c : Char) : Bool :=
  c = ' ' ∨ c = '\t' ∨ c = '\n' ∨ c = '\r' ∨ c = '\x0b' ∨ c = '\x0c'

/-- Whitespace accepted between JSON tokens by Python's `json` module. -/
def isJsonWs (c : Char) : Bool :=
  c = ' ' ∨ c = '\t' ∨ c = '\n' ∨ c = '\r'

/-- Python truthiness of an optional float (`None` and `0` are falsy). -/
def truthyQ : Option ℚ → Bool
  | Option.none => false
  | Option.some q => q != 0

/-- Python `a or b` on optional floats: `a` when truthy, else `b`. -/
def py_or (a b : Option ℚ) : Option ℚ :=
  if truthyQ a then a else b

/-- `needle` occurs as a substring of `haystack` (Python `needle in haystack`). -/
def listContains (haystack needle : List Char) : Bool :=
  match haystack with
  | [] => needle = []
  | _ :: rest => needle.isPrefixOf haystack || listContains rest needle

/-- String version of `listContains`. -/
def strContains (haystack needle : String) : Bool :=
  listContains haystack.toList needle.toList

/-- Python `str.strip()` on a character list. -/
def pyStripL (cs : List Char) : List Char :=
  ((cs.dropWhile isPyWs).reverse.dropWhile isPyWs).reverse

/-- Python `str.strip()`. -/
def pyStrip (s : String) : String :=
  (pyStripL s.toList).asString

/-! ## JSON values (model of Python parsed JSON / dicts) -/

/-- JSON values as produced by Python's `json` module.  Numbers are exact
    rationals (the decimal fragment of JSON; exponent literals are outside
    the modelled fragment). -/
inductive Json where
  | null
  | bool (b : Bool)
  | num (q : ℚ)
  | str (s : String)
  | arr (elems : List Json)
  | obj (members : List (String × Json))

/-- `v` is a Python dict (`isinstance(v, dict)`). -/
def Json.isObj : Json → Bool
  | .obj _ => true
  | _ => false

/-- `v is None`. -/
def Json.isNull : Json → Bool
  | .null => true
  | _ => false

/-- Python truthiness of a JSON value. -/
def Json.truthy : Json → Bool
  | .null => false
  | .bool b => b
  | .num q => q != 0
  | .str s => s ≠ ""
  | .arr xs => !xs.isEmpty
  | .obj kvs => !kvs.isEmpty

/-- `d.get(k)`: first binding of `k`, `None` when missing or not a dict. -/
def Json.get (v : Json) (k : String) : Json :=
  match v with
  | .obj kvs =>
    match kvs.find? (fun kv => kv.1 = k) with
    | Option.some kv => kv.2
    | Option.none => .null
  | _ => .null

/-- `d.get(k, default)`. -/
def Json.getD (v : Json) (k : String) (dflt : Json) : Json :=
  match v with
  | .obj kvs =>
    match kvs.find? (fun kv => kv.1 = k) with
    | Option.some kv => kv.2
    | Option.none => dflt
  | _ => dflt

/-- `d[k] = val` on a dict: replace the first binding or append. -/
def Json.set (v : Json) (k : String) (val : Json) : Json :=
  match v with
  | .obj kvs =>
    if kvs.any (fun kv => kv.1 = k) then
      .obj (kvs.map (fun kv => if kv.1 = k then (k, val) else kv))
    else
      .obj (kvs ++ [(k, val)])
  | v => v

/-- `v == "t"` for a JSON value (Python `==` against a string literal). -/
def Json.isStrEq (v : Json) (t : String) : Bool :=
  match v with
  | .str s => s = t
  | _ => false

/-- The string payload of a JSON string, `""` otherwise.  (The source would
    raise `AttributeError` later on non-string names; those inputs are
    outside the modelled domain.) -/
def Json.asStr : Json → String
  | .str s => s
  | _ => ""

/-- Python `a or b` on JSON values. -/
def jor (a b : Json) : Json :=
  if a.truthy then a else b

/-! ## Model of Python's `json` parsing (`json.loads`, `raw_decode`) -/

/-- Drop JSON inter-token whitespace. -/
def skipWs (cs : List Char) : List Char :=
  cs.dropWhile isJsonWs

/-- Parse the body of a JSON string after the opening quote; returns the
    decoded string and the rest after the closing quote. -/
def parseStringBody : Nat → List Char → Option (String × List Char)
  | 0, _ => Option.none
  | _, [] => Option.none
  | fuel + 1, c :: rest =>
    if c = '"' then Option.some ("", rest)
    else if c = '\\' then
      match rest with
      | [] => Option.none
      | e :: rest2 =>
        let dec : Option (Char × List Char) :=
          if e = '"' then Option.some ('"', rest2)
          else if e = '\\' then Option.some ('\\', rest2)
          else if e = '/' then Option.some ('/', rest2)
          else if e = 'b' then Option.some ('\x08', rest2)
          else if e = 'f' then Option.some ('\x0c', rest2)
          else if e = 'n' then Option.some ('\n', rest2)
          else if e = 'r' then Option.some ('\r', rest2)
          else if e = 't' then Option.some ('\t', rest2)
          else Option.none
        match dec with
        | Option.some (ch, rest3) =>
          match parseStringBody fuel rest3 with
          | Option.some (s, r) => Option.some (ch.toString ++ s, r)
          | Option.none => Option.none
        | Option.none => Option.none
    else
      match parseStringBody fuel rest with
      | Option.some (s, r) => Option.some (c.toString ++ s, r)
      | Option.none => Option.none

/-- Digits prefix of a character list, with the rest. -/
def takeDigits (cs : List Char) : List Char × List Char :=
  (cs.takeWhile Char.isDigit, cs.dropWhile Char.isDigit)

/-- Natural value of a digit list. -/
def digitsVal (ds : List Char) : Nat :=
  ds.foldl (fun n c => n * 10 + (c.toNat - '0'.toNat)) 0

/-- Parse a JSON number literal (optional minus, digits, optional decimal
    part).  Exponent suffixes are outside the modelled fragment. -/
def parseNumber (cs : List Char) : Option (Json × List Char) :=
  let (neg, cs1) :=
    match cs with
    | '-' :: t => (true, t)
    | _ => (false, cs)
  let (ds, cs2) := takeDigits cs1
  if ds = [] then Option.none
  else
    let intPart : ℚ := (digitsVal ds : ℚ)
    let (value, rest) :=
      match cs2 with
      | '.' :: cs3 =>
        let (fs, cs4) := takeDigits cs3
        if fs = [] then (intPart, cs2)
        else (intPart + (digitsVal fs : ℚ) / ((10 : ℚ) ^ fs.length), cs4)
      | _ => (intPart, cs2)
    Option.some (.num (if neg then -value else value), rest)

mutual

/-- Parse one JSON value at the head of the input (no leading whitespace
    skipped, like `JSONDecoder.raw_decode`); returns the value and the
    unconsumed rest. -/
def parseValueF : Nat → List Char → Option (Json × List Char)
  | 0, _ => Option.none
  | fuel + 1, cs =>
    match cs with
    | [] => Option.none
    | c :: rest =>
      if c = '{' then
        let rest1 := skipWs rest
        match rest1 with
        | '}' :: r2 => Option.some (.obj [], r2)
        | _ => parseMembersF fuel rest1 []
      else if c = '[' then
        let rest1 := skipWs rest
        match rest1 with
        | ']' :: r2 => Option.some (.arr [], r2)
        | _ => parseElemsF fuel rest1 []
      else if c = '"' then
        match parseStringBody (rest.length + 1) rest with
        | Option.some (s, r) => Option.some (.str s, r)
        | Option.none => Option.none
      else if c = 't' then
        match rest with
        | 'r' :: 'u' :: 'e' :: r => Option.some (.bool true, r)
        | _ => Option.none
      else if c = 'f' then
        match rest with
        | 'a' :: 'l' :: 's' :: 'e' :: r => Option.some (.bool false, r)
        | _ => Option.none
      else if c = 'n' then
        match rest with
        | 'u' :: 'l' :: 'l' :: r => Option.some (.null, r)
        | _ => Option.none
      else if c = '-' ∨ c.isDigit then parseNumber cs
      else Option.none

/-- Parse the members of a JSON object starting at a key (after `{` and
    whitespace), accumulating parsed members. -/
def parseMembersF : Nat → List Char → List (String × Json) → Option (Json × List Char)
  | 0, _, _ => Option.none
  | fuel + 1, cs, acc =>
    match cs with
    | '"' :: rest =>
      match parseStringBody (rest.length + 1) rest with
      | Option.some (key, r1) =>
        match skipWs r1 with
        | ':' :: r2 =>
          match parseValueF fuel (skipWs r2) with
          | Option.some (v, r3) =>
            match skipWs r3 with
            | ',' :: r4 => parseMembersF fuel (skipWs r4) (acc ++ [(key, v)])
            | '}' :: r4 => Option.some (.obj (acc ++ [(key, v)]), r4)
            | _ => Option.none
          | Option.none => Option.none
        | _ => Option.none
      | Option.none => Option.none
    | _ => Option.none

/-- Parse the elements of a JSON array starting at a value (after `[` and
    whitespace), accumulating parsed elements. -/
def parseElemsF : Nat → List Char → List Json → Option (Json × List Char)
  | 0, _, _ => Option.none
  | fuel + 1, cs, acc =>
    match parseValueF fuel cs with
    | Option.some (v, r1) =>
      match skipWs r1 with
      | ',' :: r2 => parseElemsF fuel (skipWs r2) (acc ++ [v])
      | ']' :: r2 => Option.some (.arr (acc ++ [v]), r2)
      | _ => Option.none
    | Option.none => Option.none

end

/-- `json.JSONDecoder().raw_decode(s)`: parse the first JSON value starting
    at position 0 (tolerating trailing garbage); returns the value and the
    unconsumed tail. -/
def rawDecode (s : String) : Option (Json × String) :=
  match parseValueF (s.length + 2) s.toList with
  | Option.some (v, rest) => Option.some (v, rest.asString)
  | Option.none => Option.none

/-- `json.loads(s)`: parse the whole string as one JSON value, allowing
    surrounding whitespace only. -/
def pyLoads (s : String) : Option Json :=
  match parseValueF (s.length + 2) (skipWs s.toList) with
  | Option.some (v, rest) => if rest.all isJsonWs then Option.some v else Option.none
  | Option.none => Option.none

/-! ## `_strip_code_fences` and `_parse_itinerary_response` -/

/-- After the three backticks of a leading fence, consume an optional
    case-insensitive `json` tag (helper of `fenceLead`). -/
def fenceJsonTag : List Char → List Char
  | a :: b :: c :: d :: t3 =>
    if a.toLower = 'j' ∧ b.toLower = 's' ∧ c.toLower = 'o' ∧ d.toLower = 'n' then t3
    else a :: b :: c :: d :: t3
  | t1 => t1

/-- The leading-fence substitution
    `re.sub(r"^\s*` ``(?:json)?\s*", "", text, flags=re.IGNORECASE)`
    (backticks elided in this comment): if the text, after an optional
    whitespace run, starts with three backticks, remove that prefix, an
    optional case-insensitive `json`, and following whitespace; otherwise
    leave the text unchanged. -/
def fenceLead (cs : List Char) : List Char :=
  match cs.dropWhile isPyWs with
  | '\x60' :: '\x60' :: '\x60' :: t1 => (fenceJsonTag t1).dropWhile isPyWs
  | _ => cs

/-- The trailing-fence substitution `re.sub(r"\s*` ``\s*$", "", text)`
    (backticks elided): if the text, before an optional trailing whitespace
    run, ends with three backticks, remove them together with the
    whitespace on both sides; otherwise leave the text unchanged. -/
def fenceTrail (cs : List Char) : List Char :=
  match cs.reverse.dropWhile isPyWs with
  | '\x60' :: '\x60' :: '\x60' :: r1 => (r1.dropWhile isPyWs).reverse
  | _ => cs

/-- `_strip_code_fences` (travel_service.py): strip a Markdown code fence
    wrapper and surrounding whitespace. -/
def strip_code_fences (s : String) : String :=
  if s = "" then s
  else (pyStripL (fenceTrail (fenceLead s.toList))).asString

/-- Strategy 1 of `_parse_itinerary_response`: `json.loads` on the whole
    cleaned text, accepted when the result is a dict. -/
def parseStrategy1 (raw : String) : Option Json :=
  match pyLoads raw with
  | Option.some v => if v.isObj then Option.some v else Option.none
  | Option.none => Option.none

/-- Strategy 2: scan for every occurrence of `{` and return the first
    position where `raw_decode` yields a dict (`start = raw.find("{")`,
    then `raw.find("{", start + 1)` on failure). -/
def scanForObject : List Char → Option Json
  | [] => Option.none
  | c :: rest =>
    if c = '{' then
      match parseValueF ((c :: rest).length + 2) (c :: rest) with
      | Option.some (v, _) => if v.isObj then Option.some v else scanForObject rest
      | Option.none => scanForObject rest
    else scanForObject rest

/-- Strategy 3: substring from the first `{` to the last `}` parsed with
    `json.loads`, accepted when the result is a dict. -/
def parseStrategy3 (raw : String) : Option Json :=
  let cs := raw.toList
  match cs.findIdx? (fun c => c = '{') with
  | Option.none => Option.none
  | Option.some first =>
    match cs.reverse.findIdx? (fun c => c = '}') with
    | Option.none => Option.none
    | Option.some revIdx =>
      let last := cs.length - 1 - revIdx
      if first < last then
        match pyLoads ((cs.drop first).take (last - first + 1)).asString with
        | Option.some v => if v.isObj then Option.some v else Option.none
        | Option.none => Option.none
      else Option.none

/-- The default itinerary synthesized on total parse failure: one
    empty-schedule day object per day. -/
def default_itinerary (days : Nat) : Json :=
  .obj ((List.range' 1 days).map (fun day =>
    ("day_" ++ toString day,
      Json.obj [
        ("theme", .str ("第" ++ toString day ++ "天行程")),
        ("schedule", .obj [("morning", .arr []), ("afternoon", .arr []), ("evening", .arr [])]),
        ("tips", .str "")])))

/-- `TravelService._parse_itinerary_response`: strip fences, then try the
    three parse strategies in order, falling back to the default
    itinerary. -/
def parse_itinerary_response (response_text : String) (days : Nat) : Json :=
  let raw := strip_code_fences (pyStrip response_text)
  match parseStrategy1 raw with
  | Option.some v => v
  | Option.none =>
    match scanForObject raw.toList with
    | Option.some v => v
    | Option.none =>
      match parseStrategy3 raw with
      | Option.some v => v
      | Option.none => default_itinerary days

/-! ## Trip facts and per-day anchor points (`_get_day_start_end_points`) -/

/-- A date-like field value as seen by the helper `_to_date`: Python
    `None`, a `date`, a `datetime` (or parseable date/datetime string,
    already reduced to its date ordinal), or an unparseable non-empty
    string. -/
inductive PyDateVal where
  | pynone
  | d (ordinal : Int)
  | dt (ordinal : Int)
  | badstr
deriving DecidableEq, Repr

/-- `_to_date`: normalize a date-like value to a `date` ordinal; `None`
    and unparseable strings give `None`. -/
def to_date : PyDateVal → Option Int
  | .pynone => Option.none
  | .badstr => Option.none
  | .d n => Option.some n
  | .dt n => Option.some n

/-- An accommodation row as read from the database (coordinates may be
    missing). -/
structure Accommodation where
  city : String
  address : String
  check_in_date : PyDateVal
  check_out_date : PyDateVal
  latitude : Option ℚ
  longitude : Option ℚ
deriving DecidableEq, Repr

/-- A flight row as read from the database.  `latitude`/`longitude` are
    the legacy single-airport coordinate fields. -/
structure Flight where
  departure_airport : String
  arrival_airport : String
  departure_time : PyDateVal
  arrival_time : PyDateVal
  return_time : PyDateVal
  departure_latitude : Option ℚ
  departure_longitude : Option ℚ
  arrival_latitude : Option ℚ
  arrival_longitude : Option ℚ
  latitude : Option ℚ
  longitude : Option ℚ
deriving DecidableEq, Repr

/-- A start/end anchor point dict. -/
structure Point where
  lat : ℚ
  lng : ℚ
  name : String
  category : String
  ptype : String
deriving DecidableEq, Repr

/-- The anchor point of an accommodation. -/
def acc_point (acc : Accommodation) : Point :=
  { lat := acc.latitude.getD 0, lng := acc.longitude.getD 0,
    name := acc.address, category := "住宿", ptype := "accommodation" }

/-- One iteration of the accommodation loop of
    `_get_day_start_end_points`: skip rows with no parseable check-in or
    without truthy coordinates, then apply the check-in / check-out /
    interior-day cases. -/
def acc_step (current_date : Int) (st en : Option Point) (acc : Accommodation) :
    Option Point × Option Point :=
  match to_date acc.check_in_date with
  | Option.none => (st, en)
  | Option.some check_in =>
    if ¬(truthyQ acc.latitude ∧ truthyQ acc.longitude) then (st, en)
    else
      let p := acc_point acc
      let check_out := to_date acc.check_out_date
      if check_in = current_date then
        (Option.some p, if check_out = Option.some current_date then Option.some p else en)
      else if check_out.isSome ∧ check_out = Option.some current_date then
        (match st with
         | Option.none => Option.some p
         | Option.some s => Option.some s, Option.some p)
      else
        match check_out with
        | Option.some co =>
          if check_in < current_date ∧ current_date < co then
            (match st with
             | Option.none => Option.some p
             | Option.some s => Option.some s, Option.some p)
          else (st, en)
        | Option.none => (st, en)

/-- The arrival date of a flight:
    `_to_date(flight.get("arrival_time")) or _to_date(flight.get("return_time"))`. -/
def flight_arrival_date (f : Flight) : Option Int :=
  match to_date f.arrival_time with
  | Option.some a => Option.some a
  | Option.none => to_date f.return_time

/-- The airport anchor point from a pair of (already truthiness-selected)
    coordinates. -/
def airport_point (lat lng : Option ℚ) (name : String) : Point :=
  { lat := lat.getD 0, lng := lng.getD 0, name := name,
    category := "机场", ptype := "airport" }

/-- The arrival half of one flight-loop iteration: an arrival on the
    current date sets the start point when it is unset (and the airport
    name and coordinates are truthy). -/
def flight_step_start (current_date : Int) (st : Option Point) (f : Flight) :
    Option Point :=
  match flight_arrival_date f with
  | Option.some a =>
    if a = current_date then
      let lat := py_or f.arrival_latitude f.latitude
      let lng := py_or f.arrival_longitude f.longitude
      if truthyQ lat ∧ truthyQ lng then
        if f.arrival_airport ≠ "" ∧ st.isNone then
          Option.some (airport_point lat lng f.arrival_airport)
        else st
      else st
    else st
  | Option.none => st

/-- The departure half of one flight-loop iteration: a departure on the
    current date overrides the end point (when the coordinates are truthy
    and the airport name is non-empty). -/
def flight_step_end (current_date : Int) (en : Option Point) (f : Flight) :
    Option Point :=
  match to_date f.departure_time with
  | Option.some dep =>
    if dep = current_date then
      let lat := py_or f.departure_latitude f.latitude
      let lng := py_or f.departure_longitude f.longitude
      if truthyQ lat ∧ truthyQ lng then
        if f.departure_airport ≠ "" then
          Option.some (airport_point lat lng f.departure_airport)
        else en
      else en
    else en
  | Option.none => en

/-- One iteration of the flight loop of `_get_day_start_end_points`
    (the arrival check touches only the start point, the departure check
    only the end point). -/
def flight_step (current_date : Int) (st en : Option Point) (f : Flight) :
    Option Point × Option Point :=
  (flight_step_start current_date st f, flight_step_end current_date en f)

/-- Single-leg special case for day 1: the first flight with a parseable
    departure date and truthy departure coordinates supplies the start
    point. -/
def first_departure_start : List Flight → Option Point
  | [] => Option.none
  | f :: rest =>
    match to_date f.departure_time with
    | Option.some _ =>
      let lat := py_or f.departure_latitude f.latitude
      let lng := py_or f.departure_longitude f.longitude
      if truthyQ lat ∧ truthyQ lng then
        Option.some (airport_point lat lng f.departure_airport)
      else first_departure_start rest
    | Option.none => first_departure_start rest

/-- The raw `or` of the arrival-time and return-time field values
    (`flight.get("arrival_time") or flight.get("return_time")`), by Python
    truthiness of the raw values. -/
def raw_arrival_or_return (f : Flight) : PyDateVal :=
  match f.arrival_time with
  | .pynone => f.return_time
  | v => v

/-- One step of the latest-arrival selection (single-leg special case for
    the last day, source lines 549-555).  The source compares
    `arrival_time > _to_date(last.get("arrival_time") or last.get("return_time"))`.
    When that right-hand side is `None` — which happens exactly when the
    current best's raw `arrival_time` is a truthy unparseable string
    (`PyDateVal.badstr`) while its `return_time` parses — the source does
    NOT produce a value: line 554 raises `TypeError` and the stream
    aborts.  That raising branch is the final `Option.none` case below;
    the function is kept total, and `last_arrival_raises` identifies the
    inputs that reach it, so that statements about anchor derivation can
    be confined (by hypothesis) to the crash-free domain on which this
    model agrees with the source. -/
def larf_step (best : Option Flight) (f : Flight) : Option Flight :=
  match flight_arrival_date f with
  | Option.none => best
  | Option.some a =>
    match best with
    | Option.none => Option.some f
    | Option.some b =>
      match to_date (raw_arrival_or_return b) with
      | Option.some bDate => if a > bDate then Option.some f else best
      | Option.none => Option.some f

/-- The fold of `larf_step` over the flight list.  Faithful to the source
    only on flight lists for which `last_arrival_raises` is `false`; on
    the others the source raises `TypeError` where this fold returns a
    value. -/
def last_arrival_flight (flights : List Flight) : Option Flight :=
  flights.foldl larf_step Option.none

/-- One step of the crash detector mirroring `last_arrival_flight`: the
    source's comparison at line 554 executes when the current flight has
    a parseable arrival date and a best flight exists, and it raises
    `TypeError` exactly when the best's raw
    `arrival_time or return_time` value does not parse to a date. -/
def larf_crashes_step : Bool × Option Flight → Flight → Bool × Option Flight
  | (true, best), _ => (true, best)
  | (false, best), f =>
    match flight_arrival_date f, best with
    | Option.some _, Option.some b =>
      if (to_date (raw_arrival_or_return b)).isNone then (true, best)
      else (false, larf_step best f)
    | _, _ => (false, larf_step best f)

/-- Whether the source's latest-arrival selection raises `TypeError` on
    this flight list (line 554: a parseable arrival date compared against
    `None`). -/
def last_arrival_raises (flights : List Flight) : Bool :=
  (flights.foldl larf_crashes_step (false, Option.none)).1

/-- `_get_day_start_end_points`: derive the start/end anchor points of day
    `day_num` (date `current_date`) from accommodations (first) and
    flights (second, may override), with single-leg special cases for the
    first and last day. -/
def get_day_start_end_points (accommodations : List Accommodation)
    (flights : List Flight) (days : Nat) (day_num : Nat) (current_date : Int) :
    Option Point × Option Point :=
  let p0 := accommodations.foldl
    (fun (p : Option Point × Option Point) acc => acc_step current_date p.1 p.2 acc)
    (Option.none, Option.none)
  let p1 := flights.foldl (fun p f => flight_step current_date p.1 p.2 f) p0
  let st :=
    if p1.1.isNone ∧ day_num = 1 then
      match first_departure_start flights with
      | Option.some p => Option.some p
      | Option.none => p1.1
    else p1.1
  let en :=
    if p1.2.isNone ∧ day_num = days then
      match last_arrival_flight flights with
      | Option.some f =>
        let lat := py_or f.arrival_latitude f.latitude
        let lng := py_or f.arrival_longitude f.longitude
        if truthyQ lat ∧ truthyQ lng then
          Option.some (airport_point lat lng f.arrival_airport)
        else p1.2
      | Option.none => p1.2
    else p1.2
  (st, en)

/-! ## Geocoding backfill (`_geocode_accommodation`, `_geocode_flight`,
    `_ensure_lat_lng`) -/

/-- A geocoding result dict (`{latitude, longitude, ...}`); a field is
    `none` when the provider returned `None` for it. -/
structure Geo where
  latitude : Option ℚ
  longitude : Option ℚ
deriving DecidableEq, Repr

/-- The geocoding collaborator: `geocode(query, location) -> dict | None`. -/
def Geocoder := String → String → Option Geo

/-- The geocoding fallback of `_geocode_accommodation`: geocode
    `"{city} {address}"` when both are non-empty and copy the coordinates
    when both are present (`is not None` checks). -/
def try_geocode_acc (geocode : Geocoder) (acc : Accommodation) : Accommodation :=
  if acc.city ≠ "" ∧ acc.address ≠ "" then
    match geocode (acc.city ++ " " ++ acc.address) acc.city with
    | Option.some g =>
      if g.latitude.isSome ∧ g.longitude.isSome then
        { acc with latitude := g.latitude, longitude := g.longitude }
      else acc
    | Option.none => acc
  else acc

/-- `_geocode_accommodation`: prefer stored coordinates when both are
    present and not the invalid pair `(0, 0)`; otherwise geocode from city
    and address. -/
def geocode_accommodation (geocode : Geocoder) (acc : Accommodation) : Accommodation :=
  match acc.latitude, acc.longitude with
  | Option.some la, Option.some lo =>
    if la ≠ 0 ∨ lo ≠ 0 then acc
    else try_geocode_acc geocode acc
  | _, _ => try_geocode_acc geocode acc

/-- The departure-airport block of `_geocode_flight`: geocode the
    departure airport by name when its coordinates are not truthy. -/
def geocode_flight_dep (geocode : Geocoder) (destination : String) (f : Flight) : Flight :=
  if f.departure_airport ≠ "" then
    if ¬(truthyQ f.departure_latitude = true ∧ truthyQ f.departure_longitude = true) then
      match geocode (destination ++ " " ++ f.departure_airport) destination with
      | Option.some g =>
        if truthyQ g.latitude ∧ truthyQ g.longitude then
          { f with departure_latitude := g.latitude, departure_longitude := g.longitude }
        else f
      | Option.none => f
    else f
  else f

/-- The arrival-airport block of `_geocode_flight`. -/
def geocode_flight_arr (geocode : Geocoder) (destination : String) (f : Flight) : Flight :=
  if f.arrival_airport ≠ "" ∧ f.arrival_airport ≠ f.departure_airport then
    if ¬(truthyQ f.arrival_latitude = true ∧ truthyQ f.arrival_longitude = true) then
      match geocode (destination ++ " " ++ f.arrival_airport) destination with
      | Option.some g =>
        if truthyQ g.latitude ∧ truthyQ g.longitude then
          { f with arrival_latitude := g.latitude, arrival_longitude := g.longitude }
        else f
      | Option.none => f
    else f
  else f

/-- The legacy-field backfill of `_geocode_flight`
    (`if not departure_latitude and latitude`). -/
def geocode_flight_legacy (f : Flight) : Flight :=
  if ¬(truthyQ f.departure_latitude = true) ∧ truthyQ f.latitude = true then
    { f with departure_latitude := f.latitude, departure_longitude := f.longitude }
  else f

/-- `_geocode_flight`: geocode the departure and arrival airports by name
    when their coordinates are not truthy, then backfill the departure
    coordinates from the legacy fields. -/
def geocode_flight (geocode : Geocoder) (destination : String) (f : Flight) : Flight :=
  geocode_flight_legacy (geocode_flight_arr geocode destination
    (geocode_flight_dep geocode destination f))

/-! ## Day-loop normalization helpers -/

/-- First `\d+(?:\.\d+)?` match in a string (`re.findall(...)[0]`). -/
def findFirstNumberL : List Char → Option ℚ
  | [] => Option.none
  | c :: rest =>
    if c.isDigit then
      let (ds, rest1) := takeDigits (c :: rest)
      let intPart : ℚ := (digitsVal ds : ℚ)
      match rest1 with
      | '.' :: rest2 =>
        let (fs, _) := takeDigits rest2
        if fs = [] then Option.some intPart
        else Option.some (intPart + (digitsVal fs : ℚ) / ((10 : ℚ) ^ fs.length))
      | _ => Option.some intPart
    else findFirstNumberL rest

/-- Python `float(s)` on a string: optional surrounding whitespace,
    optional sign, digits with an optional decimal part (exponent forms
    are outside the modelled fragment); `None` when unparseable. -/
def pyFloatOfString (s : String) : Option ℚ :=
  let cs := s.toList.dropWhile isPyWs
  let (neg, cs1) :=
    match cs with
    | '-' :: t => (true, t)
    | '+' :: t => (false, t)
    | _ => (false, cs)
  let (ds, cs2) := takeDigits cs1
  if ds = [] then Option.none
  else
    let intPart : ℚ := (digitsVal ds : ℚ)
    let (value, rest) :=
      match cs2 with
      | '.' :: cs3 =>
        let (fs, cs4) := takeDigits cs3
        (intPart + (digitsVal fs : ℚ) / ((10 : ℚ) ^ fs.length), cs4)
      | _ => (intPart, cs2)
    if rest.dropWhile isPyWs = [] then Option.some (if neg then -value else value)
    else Option.none

/-- Python `str(v)` of a JSON value, for the fragments exercised here
    (strings are returned verbatim; other values get their canonical
    Python rendering, integers without a decimal part). -/
def py_str : Json → String
  | .str s => s
  | .null => "None"
  | .bool b => if b then "True" else "False"
  | .num q => if q.den = 1 then toString q.num else toString q
  | .arr _ => "[...]"
  | .obj _ => "\x7b...\x7d"

/-- `_num`: coerce a JSON value to a float, else `None` (bools are Python
    ints; strings go through `float`). -/
def num_of : Json → Option ℚ
  | .null => Option.none
  | .num q => Option.some q
  | .bool b => Option.some (if b then 1 else 0)
  | .str s => pyFloatOfString s
  | .arr _ => Option.none
  | .obj _ => Option.none

/-- Truncation of a rational toward zero (Python `int(float)`). -/
def int_trunc (q : ℚ) : Int :=
  q.num / (q.den : Int)

/-- `_dur`: coerce a JSON value to an integer duration with a default. -/
def dur_of (v : Json) (default : Int) : Int :=
  match v with
  | .null => default
  | .num q => int_trunc q
  | .bool b => if b then 1 else 0
  | .str s =>
    match pyFloatOfString s with
    | Option.some q => int_trunc q
    | Option.none => default
  | _ => default

/-- `_norm_notes`: normalize a notes value to a list of non-empty
    strings. -/
def norm_notes (v : Json) : List String :=
  if v.truthy = false then []
  else
    match v with
    | .arr xs =>
      xs.filterMap (fun x =>
        match x with
        | Json.null => Option.none
        | x => if pyStrip (py_str x) ≠ "" then Option.some (py_str x) else Option.none)
    | .str s => if pyStrip s ≠ "" then [pyStrip s] else []
    | v => [py_str v]

/-- `_to_float` inside `_cost_for`: numbers (and bools) convert directly,
    anything else goes through the first-number regex on `str(s)`. -/
def to_float_first (v : Json) : Option ℚ :=
  match v with
  | .null => Option.none
  | .num q => Option.some q
  | .bool b => Option.some (if b then 1 else 0)
  | v => findFirstNumberL (py_str v).toList

/-- `_cost_for`: derive the `{cost, cost_yuan}` estimate for an activity
    by category. -/
def cost_for (item : Json) (category : String) : String × Option ℚ :=
  if category = "美食" then
    let pr := jor (item.get "price_range") (jor (item.get "price") (item.get "avg_price"))
    if pr.truthy then
      let label := pyStrip (py_str pr)
      let text := if strContains label "¥" ∨ strContains label "人均" then label
                  else "人均 ¥" ++ label
      (text, to_float_first pr)
    else ("¥60-120 /人", Option.some 90)
  else if category = "景点" then
    let tp := jor (item.get "ticket_price") (jor (item.get "ticket") (item.get "price"))
    if tp.truthy then
      let label := pyStrip (py_str tp)
      let text := if strContains label "¥" then label else "约 ¥" ++ label
      (text, to_float_first tp)
    else ("¥0-80", Option.some 40)
  else ("¥0", Option.some 0)

/-- `_as_list` (day-event grouping): coerce a schedule segment value into
    a list of activity dicts, dropping non-dict entries of lists. -/
def as_list (v : Json) : List Json :=
  if v.truthy = false then []
  else
    match v with
    | .arr xs => xs.filter Json.isObj
    | .obj kvs =>
      match Json.get (.obj kvs) "items" with
      | .arr xs => xs.filter Json.isObj
      | _ => [Json.obj kvs]
    | _ => []

/-- `_norm_list` (spots/restaurants derivation): like `_as_list` but
    without dict filtering. -/
def norm_list (v : Json) : List Json :=
  if v.truthy = false then []
  else
    match v with
    | .arr xs => xs
    | .obj kvs =>
      match Json.get (.obj kvs) "items" with
      | .arr xs => xs
      | _ => [Json.obj kvs]
    | _ => []

/-- The activity type tag:
    `p.get("type") or ("restaurant" if cuisine/cuisine_type/price_range else "spot")`. -/
def ptype_of (p : Json) : Json :=
  jor (p.get "type")
    (if (p.get "cuisine").truthy ∨ (p.get "cuisine_type").truthy ∨ (p.get "price_range").truthy
     then .str "restaurant" else .str "spot")

/-- `_safe_len` (stats block): length of a list or of a dict's `items`
    list, `0` otherwise. -/
def safe_len (v : Json) : Nat :=
  match v with
  | .arr xs => xs.length
  | .obj kvs =>
    match Json.get (.obj kvs) "items" with
    | .arr xs => xs.length
    | _ => 0
  | _ => 0

/-- The recommendation-list coordinate match of the day loop: the first
    item whose name matches case-insensitively in either substring
    direction and that has both coordinates present supplies them. -/
def rec_match (search_list : List Json) (act_name : String) (lat lng : Option ℚ) :
    Option ℚ × Option ℚ :=
  match search_list with
  | [] => (lat, lng)
  | rec :: rest =>
    let rec_name := (Json.getD rec "name" (.str "")).asStr
    if rec_name ≠ "" ∧
       (strContains rec_name.toLower act_name.toLower ∨
        strContains act_name.toLower rec_name.toLower) then
      if ¬(rec.get "latitude").isNull ∧ ¬(rec.get "longitude").isNull then
        (num_of (rec.get "latitude"), num_of (rec.get "longitude"))
      else rec_match rest act_name lat lng
    else rec_match rest act_name lat lng

/-- `_ensure_lat_lng`: backfill missing coordinates of recommendation
    items by geocoding `"{destination} {name}"`. -/
def ensure_lat_lng (geocode : Geocoder) (destination : String) (items : List Json) :
    List Json :=
  items.map (fun item =>
    if item.isObj = false then item
    else
      let lat := item.get "latitude"
      let lng := item.get "longitude"
      if (lat.isNull ∨ lng.isNull) ∧ (item.get "name").truthy then
        match geocode (destination ++ " " ++ py_str (item.get "name")) destination with
        | Option.some g =>
          if g.latitude.isSome ∧ g.longitude.isSome then
            ((item.set "latitude" (match g.latitude with
              | Option.some q => .num q
              | Option.none => .null)).set "longitude" (match g.longitude with
              | Option.some q => .num q
              | Option.none => .null))
          else item
        | Option.none => item
      else item)

/-! ## Per-day event construction -/

/-- A normalized activity item as assembled into `day`-event groups
    (`base` dict of the source).  `cuisine`/`price_range` are only present
    on 美食 (restaurant) items. -/
structure NormItem where
  uniqueId : String
  timeOfDay : String
  name : String
  category : String
  duration : Int
  lat : Option ℚ
  lng : Option ℚ
  description : Json
  notes : List String
  commute_from_prev : Json
  cuisine : Option Json
  price_range : Option Json
  cost : String
  cost_yuan : Option ℚ

/-- The grouped items of one `day` event, keyed by time segment. -/
structure GroupedItems where
  morning : List NormItem
  afternoon : List NormItem
  evening : List NormItem

/-- The `stats` block of a `day` event. -/
structure Stats where
  spots : Nat
  restaurants : Nat
  sched_morning : Nat
  sched_afternoon : Nat
  sched_evening : Nat
  grouped_morning : Nat
  grouped_afternoon : Nat
  grouped_evening : Nat
deriving DecidableEq, Repr

/-- The payload of one `day` event. -/
structure DayPayload where
  day_number : Nat
  items : GroupedItems
  stats : Stats
  start_point : Option Point
  end_point : Option Point

/-- The collaborator data the day loop reads (recommendation lists after
    `_ensure_lat_lng`, trip facts after the geocoding backfill). -/
structure DayCtx where
  destination : String
  start_date : Int
  days : Nat
  attractions : List Json
  restaurants : List Json
  accommodations : List Accommodation
  flights : List Flight
  geocode : Geocoder

/-- The default day itinerary used when `day_{n}` is not a dict
    (`{"schedule": {"morning": [], ...}, "spots": [], "restaurants": []}`). -/
def default_day_itinerary : Json :=
  .obj [
    ("schedule", .obj [("morning", .arr []), ("afternoon", .arr []), ("evening", .arr [])]),
    ("spots", .arr []),
    ("restaurants", .arr [])]

/-- Extract `d.get(k, []) or []` as a list (the exercised values are
    lists or missing). -/
def get_list_or_empty (d : Json) (k : String) : List Json :=
  match Json.getD d k (.arr []) with
  | .arr xs => xs
  | _ => []

/-- The spots/restaurants derivation from the schedule (source lines
    596-631): when both top-level lists are empty and the schedule dict is
    truthy, merge the `_norm_list` of the three segments and classify each
    dict by type tag. -/
def derive_spots_restaurants (day_itinerary : Json) : List Json × List Json :=
  let day_spots := get_list_or_empty day_itinerary "spots"
  let day_restaurants := get_list_or_empty day_itinerary "restaurants"
  let schedule :=
    match day_itinerary.get "schedule" with
    | .obj kvs => Json.obj kvs
    | _ => .obj []
  if day_spots.isEmpty ∧ day_restaurants.isEmpty ∧ schedule.truthy then
    let merged := norm_list (schedule.get "morning") ++ norm_list (schedule.get "afternoon")
      ++ norm_list (schedule.get "evening")
    merged.foldl
      (fun (p : List Json × List Json) item =>
        if item.isObj = false then p
        else if (ptype_of item).isStrEq "restaurant" then (p.1, p.2 ++ [item])
        else (p.1 ++ [item], p.2))
      (day_spots, day_restaurants)
  else (day_spots, day_restaurants)

/-- The leftover loop state after the mis-indented segment loops (source
    lines 755-759): the last activity dict of the last non-empty segment,
    with its index in that segment.  (`has_schedule` guarantees the result
    is `some`; an empty schedule would leave the loop variables unbound in
    the source.) -/
def last_seg_act (schedule : Json) : Option (Json × Nat) :=
  let pick (l : List Json) (prev : Option (Json × Nat)) : Option (Json × Nat) :=
    match l.getLast? with
    | Option.some x => Option.some (x, l.length - 1)
    | Option.none => prev
  pick (as_list (schedule.get "evening"))
    (pick (as_list (schedule.get "afternoon"))
      (pick (as_list (schedule.get "morning")) Option.none))

/-- The dangling normalization block of the schedule branch (source lines
    761-802).  Because the block sits outside the `for seg` / `for idx,
    act` loops, it runs ONCE per day with the leftover loop variables:
    `act`/`idx` from the last non-empty segment and `seg = "evening"`.
    The `base` item is built and appended (always to the evening group)
    only inside the innermost guard: coordinates still missing after the
    recommendation-list match, with a non-empty name. -/
def schedule_branch_items (ctx : DayCtx) (day_num : Nat) (schedule : Json) :
    List NormItem :=
  match last_seg_act schedule with
  | Option.none => []
  | Option.some (act, idx) =>
    let ptype := ptype_of act
    let category := if ptype.isStrEq "restaurant" then "美食" else "景点"
    let lat := num_of (act.get "latitude")
    let lng := num_of (act.get "longitude")
    let act_name := (jor (act.get "name") (jor (act.get "location") (.str ""))).asStr
    if (lat.isNone ∨ lng.isNone) ∧ act_name ≠ "" then
      let search_list := if category = "景点" then ctx.attractions else ctx.restaurants
      let ll := rec_match search_list act_name lat lng
      let lat := ll.1
      let lng := ll.2
      if (lat.isNone ∨ lng.isNone) ∧ act_name ≠ "" ∧ category ≠ "住宿" ∧ category ≠ "机场" then
        let ll2 :=
          match ctx.geocode (ctx.destination ++ " " ++ act_name) ctx.destination with
          | Option.some g =>
            if g.latitude.isSome ∧ g.longitude.isSome then (g.latitude, g.longitude)
            else (lat, lng)
          | Option.none => (lat, lng)
        let seg := "evening"
        let costs := cost_for act category
        [{ uniqueId := (if category = "美食" then "rest" else "spot") ++ "_"
              ++ toString day_num ++ "_" ++ seg ++ "_" ++ toString idx,
           timeOfDay := seg,
           name := if act_name ≠ "" then act_name
                   else (if category = "美食" then "餐厅" else "景点") ++ toString (idx + 1),
           category := category,
           duration := dur_of (act.get "play_time_minutes") (dur_of (act.get "recommended_time") 60),
           lat := ll2.1, lng := ll2.2,
           description := act.get "description",
           notes := norm_notes (act.get "notes"),
           commute_from_prev := act.get "commute_from_prev",
           cuisine := if category = "美食" then Option.some (act.get "cuisine") else Option.none,
           price_range := if category = "美食" then Option.some (act.get "price_range") else Option.none,
           cost := costs.1, cost_yuan := costs.2 }]
      else []
    else []

/-- Per-item normalization of the no-schedule branch (source lines
    810-852): one `base` dict per merged spot/restaurant, segment chosen
    by `idx % 3`. -/
def normalize_merged_item (ctx : DayCtx) (day_num : Nat) (idx : Nat)
    (ptype : String) (act : Json) : NormItem :=
  let seg := if idx % 3 = 0 then "morning" else if idx % 3 = 1 then "afternoon" else "evening"
  let category := if ptype = "restaurant" then "美食" else "景点"
  let lat := num_of (act.get "latitude")
  let lng := num_of (act.get "longitude")
  let act_name := (jor (act.get "name") (jor (act.get "location") (.str ""))).asStr
  let ll :=
    if (lat.isNone ∨ lng.isNone) ∧ act_name ≠ "" then
      let search_list := if category = "景点" then ctx.attractions else ctx.restaurants
      let ll1 := rec_match search_list act_name lat lng
      if (ll1.1.isNone ∨ ll1.2.isNone) ∧ act_name ≠ "" then
        match ctx.geocode (ctx.destination ++ " " ++ act_name) ctx.destination with
        | Option.some g =>
          if g.latitude.isSome ∧ g.longitude.isSome then (g.latitude, g.longitude)
          else ll1
        | Option.none => ll1
      else ll1
    else (lat, lng)
  let costs := cost_for act category
  { uniqueId := (if category = "美食" then "rest" else "spot") ++ "_"
      ++ toString day_num ++ "_" ++ seg ++ "_" ++ toString idx,
    timeOfDay := seg,
    name := if act_name ≠ "" then act_name
            else (if category = "美食" then "餐厅" else "景点") ++ toString (idx + 1),
    category := category,
    duration := dur_of (act.get "play_time_minutes") (dur_of (act.get "recommended_time") 60),
    lat := ll.1, lng := ll.2,
    description := act.get "description",
    notes := norm_notes (act.get "notes"),
    commute_from_prev := act.get "commute_from_prev",
    cuisine := if category = "美食"
               then Option.some (jor (act.get "cuisine") (act.get "cuisine_type"))
               else Option.none,
    price_range := if category = "美食" then Option.some (act.get "price_range") else Option.none,
    cost := costs.1, cost_yuan := costs.2 }

/-- The no-schedule branch: spread the derived spots and restaurants over
    morning/afternoon/evening by merged index. -/
def merged_branch_items (ctx : DayCtx) (day_num : Nat)
    (day_spots day_restaurants : List Json) : GroupedItems :=
  let merged := day_spots.map (fun s => ("spot", s))
    ++ day_restaurants.map (fun r => ("restaurant", r))
  let items := merged.enum.map (fun p => normalize_merged_item ctx day_num p.1 p.2.1 p.2.2)
  { morning := items.filter (fun it => it.timeOfDay = "morning"),
    afternoon := items.filter (fun it => it.timeOfDay = "afternoon"),
    evening := items.filter (fun it => it.timeOfDay = "evening") }

/-- Coordinate backfill of the fallback-synthesis items (source lines
    873-877 and analogues): geocode by name and copy whatever the result
    dict holds, without presence checks. -/
def fallback_coords (ctx : DayCtx) (item : Json) : Option ℚ × Option ℚ :=
  let lat := num_of (item.get "latitude")
  let lng := num_of (item.get "longitude")
  if (lat.isNone ∨ lng.isNone) ∧ (item.get "name").truthy then
    match ctx.geocode (ctx.destination ++ " " ++ py_str (item.get "name")) ctx.destination with
    | Option.some g => (g.latitude, g.longitude)
    | Option.none => (lat, lng)
  else (lat, lng)

/-- Fallback synthesis (source lines 856-943): when all three groups are
    empty, fill them from per-day slices of the recommendation lists
    (two attractions, one restaurant, offset by `day_num - 1`). -/
def fallback_synthesis (ctx : DayCtx) (day_num : Nat) (grouped : GroupedItems) :
    GroupedItems :=
  let spot_start := (day_num - 1) * 2
  let rest_start := (day_num - 1) * 1
  let spot_slice := (ctx.attractions.drop spot_start).take 2
  let rest_slice := (ctx.restaurants.drop rest_start).take 1
  if spot_slice.isEmpty ∧ rest_slice.isEmpty then grouped
  else
    let morning :=
      match spot_slice.head? with
      | Option.none => []
      | Option.some s0 =>
        let ll := fallback_coords ctx s0
        let costs := cost_for s0 "景点"
        [{ uniqueId := "spot_" ++ toString day_num ++ "_morning_fallback_0",
           timeOfDay := "morning",
           name := (jor (s0.get "name") (jor (s0.get "location") (.str "景点"))).asStr,
           category := "景点",
           duration := dur_of (s0.get "play_time_minutes") 120,
           lat := ll.1, lng := ll.2,
           description := s0.get "description",
           notes := norm_notes (s0.get "notes"),
           commute_from_prev := s0.get "commute_from_prev",
           cuisine := Option.none, price_range := Option.none,
           cost := costs.1, cost_yuan := costs.2 }]
    let afternoon :=
      match rest_slice.head? with
      | Option.none => []
      | Option.some r0 =>
        let ll := fallback_coords ctx r0
        let costs := cost_for r0 "美食"
        [{ uniqueId := "rest_" ++ toString day_num ++ "_afternoon_fallback_0",
           timeOfDay := "afternoon",
           name := (jor (r0.get "name") (.str "推荐餐厅")).asStr,
           category := "美食",
           duration := dur_of (r0.get "play_time_minutes") 60,
           lat := ll.1, lng := ll.2,
           description := r0.get "description",
           notes := norm_notes (r0.get "notes"),
           commute_from_prev := r0.get "commute_from_prev",
           cuisine := Option.some (jor (r0.get "cuisine") (r0.get "cuisine_type")),
           price_range := Option.some (r0.get "price_range"),
           cost := costs.1, cost_yuan := costs.2 }]
    let evening :=
      match (spot_slice.drop 1).head? with
      | Option.none => []
      | Option.some s1 =>
        let ll := fallback_coords ctx s1
        let costs := cost_for s1 "景点"
        [{ uniqueId := "spot_" ++ toString day_num ++ "_evening_fallback_1",
           timeOfDay := "evening",
           name := (jor (s1.get "name") (.str "夜间景点")).asStr,
           category := "景点",
           duration := dur_of (s1.get "play_time_minutes") 90,
           lat := ll.1, lng := ll.2,
           description := s1.get "description",
           notes := norm_notes (s1.get "notes"),
           commute_from_prev := s1.get "commute_from_prev",
           cuisine := Option.none, price_range := Option.none,
           cost := costs.1, cost_yuan := costs.2 }]
    { morning := morning, afternoon := afternoon, evening := evening }

/-- One iteration of the per-day loop of the stream orchestrator (source
    lines 577-983): resolve the day's itinerary dict, derive
    spots/restaurants, compute anchor points, build the grouped items
    (via the mis-indented schedule branch or the merged branch), apply
    fallback synthesis, and assemble the stats block. -/
def build_day_event (ctx : DayCtx) (itinerary_data : Json) (day_num : Nat) : DayPayload :=
  let current_date := ctx.start_date + (day_num : Int) - 1
  let day_itinerary_raw := Json.getD itinerary_data ("day_" ++ toString day_num) (.obj [])
  let day_itinerary := if day_itinerary_raw.isObj then day_itinerary_raw else default_day_itinerary
  let day_points := get_day_start_end_points ctx.accommodations ctx.flights ctx.days day_num current_date
  let sr := derive_spots_restaurants day_itinerary
  let day_spots := sr.1
  let day_restaurants := sr.2
  let schedule :=
    match day_itinerary.get "schedule" with
    | .obj kvs => Json.obj kvs
    | _ => .obj []
  let has_schedule := schedule.isObj ∧
    (¬(as_list (schedule.get "morning")).isEmpty ∨
     ¬(as_list (schedule.get "afternoon")).isEmpty ∨
     ¬(as_list (schedule.get "evening")).isEmpty)
  let grouped :=
    if has_schedule then
      { morning := [], afternoon := [],
        evening := schedule_branch_items ctx day_num schedule }
    else
      merged_branch_items ctx day_num day_spots day_restaurants
  let grouped :=
    if grouped.morning.isEmpty ∧ grouped.afternoon.isEmpty ∧ grouped.evening.isEmpty then
      fallback_synthesis ctx day_num grouped
    else grouped
  let schedule_for_stats :=
    match day_itinerary.get "schedule" with
    | .obj kvs => Json.obj kvs
    | _ => .obj []
  { day_number := day_num,
    items := grouped,
    stats := {
      spots := day_spots.length,
      restaurants := day_restaurants.length,
      sched_morning := safe_len (schedule_for_stats.get "morning"),
      sched_afternoon := safe_len (schedule_for_stats.get "afternoon"),
      sched_evening := safe_len (schedule_for_stats.get "evening"),
      grouped_morning := grouped.morning.length,
      grouped_afternoon := grouped.afternoon.length,
      grouped_evening := grouped.evening.length },
    start_point := day_points.1,
    end_point := day_points.2 }

/-! ## The stream orchestrator (`generate_itinerary_stream`) -/

/-- The SSE events the generator can emit. -/
inductive Event where
  | started
  | heartbeat
  | progress (stage : String)
  | token (delta : String)
  | day (day_number : Nat) (payload : DayPayload)
  | result
  | error (message : String)

/-- One yielded frame of the generator, plus a marker recording the
    completion of a day's persistence call (`create_itinerary_detail`),
    which yields no frame but fixes the ordering the spec talks about. -/
inductive TraceItem where
  | comment
  | ev (e : Event)
  | persist_done (day : Nat)

/-- The two LLM delivery modes (source lines 250-263): a token stream
    with per-chunk `content` (possibly `None` or empty), or a single
    `invoke` whose response text may be `None`. -/
inductive LLMMode where
  | streaming (chunks : List (Option String))
  | single_shot (content : Option String)

/-- The LLM phase of the stream: the frames it yields and the accumulated
    response text.  In the streaming branch falsy chunks are skipped
    (`if not token: continue`); in the single-shot branch one token event
    is yielded unconditionally with `resp.content or ""`. -/
def llm_trace : LLMMode → List TraceItem × String
  | .streaming chunks =>
    let kept := chunks.filterMap (fun c =>
      match c with
      | Option.none => Option.none
      | Option.some t => if t = "" then Option.none else Option.some t)
    ([TraceItem.ev (.progress "llm_stream_start")]
      ++ kept.map (fun t => TraceItem.ev (.token t))
      ++ [TraceItem.ev (.progress "llm_stream_end")],
     String.join kept)
  | .single_shot content =>
    let text := content.getD ""
    ([TraceItem.ev (.progress "llm_invoke"), TraceItem.ev (.token text)], text)

/-- The per-day loop: persist day `d` (the collaborator may raise), then
    yield the `day` frame; an exception aborts the loop, carrying the
    message out to the generator's handler. -/
def day_loop (persist : Nat → Except String Unit) (payload : Nat → DayPayload) :
    List Nat → List TraceItem × Option String
  | [] => ([], Option.none)
  | d :: ds =>
    match persist d with
    | .error e => ([], Option.some e)
    | .ok _ =>
      let rest := day_loop persist payload ds
      (TraceItem.persist_done d :: TraceItem.ev (.day d (payload d)) :: rest.1, rest.2)

/-- The collaborator inputs of one stream run: destination and dates,
    raw recommendation/search results, trip-fact rows, and the geocoder. -/
structure StreamCtx where
  destination : String
  start_date : Int
  days : Nat
  attractions_raw : List Json
  restaurants_raw : List Json
  flights_raw : List Flight
  accommodations_raw : List Accommodation
  geocode : Geocoder

/-- The `DayCtx` the day loop runs with, after `_ensure_lat_lng` on the
    recommendation lists and the geocoding backfill on trip facts. -/
def StreamCtx.dayCtx (ctx : StreamCtx) : DayCtx :=
  { destination := ctx.destination,
    start_date := ctx.start_date,
    days := ctx.days,
    attractions := ensure_lat_lng ctx.geocode ctx.destination ctx.attractions_raw,
    restaurants := ensure_lat_lng ctx.geocode ctx.destination ctx.restaurants_raw,
    accommodations := ctx.accommodations_raw.map (geocode_accommodation ctx.geocode),
    flights := ctx.flights_raw.map (geocode_flight ctx.geocode ctx.destination),
    geocode := ctx.geocode }

/-- The terminal frame of the stream: the single `error` frame when the
    day loop raised, the `result` frame otherwise. -/
def final_frame : Option String → List TraceItem
  | Option.some e => [TraceItem.ev (.error e)]
  | Option.none => [TraceItem.ev .result]

/-- `TravelService.generate_itinerary_stream` as a trace function: the
    comment frame, `started`, `heartbeat`, the LLM phase, the three
    progress frames, the day loop, and `result` — or a single terminal
    `error` frame when the modelled exception point (persistence) raises. -/
def generate_itinerary_stream (ctx : StreamCtx) (llm : LLMMode)
    (persist : Nat → Except String Unit) : List TraceItem :=
  let lp := llm_trace llm
  let parsed := parse_itinerary_response lp.2 ctx.days
  let itinerary_data := if parsed.isObj then parsed else .obj []
  let dl := day_loop persist (fun d => build_day_event ctx.dayCtx itinerary_data d)
    (List.range' 1 ctx.days)
  [TraceItem.comment, TraceItem.ev .started, TraceItem.ev .heartbeat]
    ++ lp.1
    ++ [TraceItem.ev (.progress "parse_json"), TraceItem.ev (.progress "fetch_recommendations"),
        TraceItem.ev (.progress "persist")]
    ++ dl.1
    ++ final_frame dl.2

/-- The observable label of a frame: the SSE event name, with the
    progress stage and day number appended where the spec distinguishes
    them; persistence completions labelled `persist_done:<n>`; the
    comment frame labelled `:`. -/
def TraceItem.tag : TraceItem → String
  | .comment => ":"
  | .ev .started => "started"
  | .ev .heartbeat => "heartbeat"
  | .ev (.progress st) => "progress:" ++ st
  | .ev (.token _) => "token"
  | .ev (.day n _) => "day:" ++ toString n
  | .ev .result => "result"
  | .ev (.error _) => "error"
  | .persist_done n => "persist_done:" ++ toString n

/-- The `day_number`s of the `day` events of a trace, in emission order. -/
def dayNumbers (trace : List TraceItem) : List Nat :=
  trace.filterMap (fun it =>
    match it with
    | TraceItem.ev (.day n _) => Option.some n
    | _ => Option.none)

/-- Whether a trace contains an `error` event. -/
def hasError (trace : List TraceItem) : Bool :=
  trace.any (fun it =>
    match it with
    | TraceItem.ev (.error _) => true
    | _ => false)

/-! ## Claims about anchor derivation -/

/-- C6: for a single accommodation with valid coordinates, check-in `d0`
    and check-out `d0 + 3`, and no flights, anchor derivation assigns:
    check-in day `start = lodging`; both strictly interior days
    `start = end = lodging`; check-out day `end = lodging` and — since the
    start is still unset — `start = lodging` as well. -/
theorem claim_C6_anchor_coverage (d0 : Int) (la lo : ℚ) (hla : la ≠ 0) (hlo : lo ≠ 0)
    (city addr : String) (days day_num : Nat) :
    get_day_start_end_points
        [{ city := city, address := addr, check_in_date := .d d0,
           check_out_date := .d (d0 + 3),
           latitude := Option.some la, longitude := Option.some lo }] [] days day_num d0 =
      (Option.some { lat := la, lng := lo, name := addr, category := "住宿",
                     ptype := "accommodation" }, Option.none) ∧
    get_day_start_end_points
        [{ city := city, address := addr, check_in_date := .d d0,
           check_out_date := .d (d0 + 3),
           latitude := Option.some la, longitude := Option.some lo }] [] days day_num (d0 + 1) =
      (Option.some { lat := la, lng := lo, name := addr, category := "住宿",
                     ptype := "accommodation" },
       Option.some { lat := la, lng := lo, name := addr, category := "住宿",
                     ptype := "accommodation" }) ∧
    get_day_start_end_points
        [{ city := city, address := addr, check_in_date := .d d0,
           check_out_date := .d (d0 + 3),
           latitude := Option.some la, longitude := Option.some lo }] [] days day_num (d0 + 2) =
      (Option.some { lat := la, lng := lo, name := addr, category := "住宿",
                     ptype := "accommodation" },
       Option.some { lat := la, lng := lo, name := addr, category := "住宿",
                     ptype := "accommodation" }) ∧
    get_day_start_end_points
        [{ city := city, address := addr, check_in_date := .d d0,
           check_out_date := .d (d0 + 3),
           latitude := Option.some la, longitude := Option.some lo }] [] days day_num (d0 + 3) =
      (Option.some { lat := la, lng := lo, name := addr, category := "住宿",
                     ptype := "accommodation" },
       Option.some { lat := la, lng := lo, name := addr, category := "住宿",
                     ptype := "accommodation" }) := by
  have h1 : d0 + 1 ≠ d0 := by omega
  have h2 : d0 + 2 ≠ d0 := by omega
  have h3 : d0 + 3 ≠ d0 := by omega
  refine ⟨?_, ?_, ?_, ?_⟩ <;>
    simp [get_day_start_end_points, acc_step, acc_point, to_date, truthyQ,
      first_departure_start, last_arrival_flight, bne_iff_ne, hla, hlo, h1, h2, h3]

/-- Witness for C6 at concrete inputs. -/
theorem claim_C6_anchor_coverage_witness :
    (31 : ℚ) ≠ 0 ∧ (121 : ℚ) ≠ 0 ∧
    get_day_start_end_points
        [{ city := "C", address := "A", check_in_date := .d 0, check_out_date := .d 3,
           latitude := Option.some 31, longitude := Option.some 121 }] [] 4 2 1 =
      (Option.some { lat := 31, lng := 121, name := "A", category := "住宿",
                     ptype := "accommodation" },
       Option.some { lat := 31, lng := 121, name := "A", category := "住宿",
                     ptype := "accommodation" }) :=
  ⟨by norm_num, by norm_num,
    ((claim_C6_anchor_coverage 0 31 121 (by norm_num) (by norm_num) "C" "A" 4 2).2.1)⟩

/-- A flight whose departure branch fires on `current_date`: parseable
    departure date equal to the current date, truthy effective departure
    coordinates (after the legacy `or` fallback) and a non-empty airport
    name. -/
def valid_departure (f : Flight) (current_date : Int) : Bool :=
  (to_date f.departure_time == Option.some current_date) &&
  truthyQ (py_or f.departure_latitude f.latitude) &&
  truthyQ (py_or f.departure_longitude f.longitude) &&
  (f.departure_airport != "")

/-- The departure-airport anchor point of a flight. -/
def dep_point (f : Flight) : Point :=
  airport_point (py_or f.departure_latitude f.latitude)
    (py_or f.departure_longitude f.longitude) f.departure_airport

theorem flight_step_end_of_valid (cur : Int) (en : Option Point) (f : Flight)
    (h : valid_departure f cur = true) :
    flight_step_end cur en f = Option.some (dep_point f) := by
  unfold valid_departure at h
  simp only [Bool.and_eq_true, beq_iff_eq, bne_iff_ne] at h
  obtain ⟨⟨⟨h1, h2⟩, h3⟩, h4⟩ := h
  simp [flight_step_end, dep_point, h1, h2, h3, h4]

theorem flight_step_end_of_invalid (cur : Int) (en : Option Point) (f : Flight)
    (h : valid_departure f cur = false) :
    flight_step_end cur en f = en := by
  unfold valid_departure at h
  unfold flight_step_end
  cases hdep : to_date f.departure_time with
  | none => rfl
  | some dep =>
    rw [hdep] at h
    by_cases hd : dep = cur
    · subst hd
      simp only [beq_self_eq_true, Bool.true_and] at h
      simp only [if_pos rfl]
      by_cases h2 : truthyQ (py_or f.departure_latitude f.latitude) = true
      · rw [h2] at h
        simp only [Bool.true_and] at h
        by_cases h3 : truthyQ (py_or f.departure_longitude f.longitude) = true
        · rw [h3] at h
          simp only [Bool.true_and, bne_eq_false_iff_eq] at h
          simp [h2, h3, h]
        · simp [h2, eq_false_of_ne_true h3]
      · simp [eq_false_of_ne_true h2]
    · simp [hd]

theorem flights_fold_snd (cur : Int) (l : List Flight) (p : Option Point × Option Point) :
    (l.foldl (fun q f => flight_step cur q.1 q.2 f) p).2 =
      l.foldl (fun e f => flight_step_end cur e f) p.2 := by
  induction l generalizing p with
  | nil => rfl
  | cons g t ih =>
    simp only [List.foldl_cons]
    exact ih (flight_step cur p.1 p.2 g)

theorem fold_end_of_no_valid (cur : Int) (l : List Flight) (en : Option Point)
    (h : ∀ f ∈ l, valid_departure f cur = false) :
    l.foldl (fun e f => flight_step_end cur e f) en = en := by
  induction l generalizing en with
  | nil => rfl
  | cons g t ih =>
    simp only [List.foldl_cons]
    rw [flight_step_end_of_invalid cur en g (h g (by simp))]
    exact ih en (fun f hf => h f (by simp [hf]))

theorem fold_end_of_last_valid (cur : Int) (l : List Flight) (en : Option Point)
    (f : Flight)
    (h : (l.filter (fun g => valid_departure g cur)).getLast? = Option.some f) :
    l.foldl (fun e g => flight_step_end cur e g) en = Option.some (dep_point f) := by
  induction l generalizing en with
  | nil => simp at h
  | cons g t ih =>
    simp only [List.foldl_cons]
    by_cases hg : valid_departure g cur = true
    · rw [List.filter_cons_of_pos (by simp [hg])] at h
      cases hft : t.filter (fun g => valid_departure g cur) with
      | nil =>
        rw [hft] at h
        simp only [List.getLast?_singleton, Option.some.injEq] at h
        subst h
        rw [flight_step_end_of_valid cur en g hg]
        exact fold_end_of_no_valid cur t _
          (fun f' hf' => by
            have := (List.filter_eq_nil_iff.mp hft) f' hf'
            simpa using this)
      | cons a as =>
        rw [hft, List.getLast?_cons_cons] at h
        exact ih _ (by rw [hft]; exact h)
    · rw [List.filter_cons_of_neg (by simp [hg])] at h
      exact ih _ h

/-- C7: whenever some flight's departure branch fires on the day's date
    (the last such flight in list order), the derived end point is that
    flight's departure airport, regardless of the accommodations — in
    particular it overrides any lodging-derived end point. -/
theorem claim_C7_departure_overrides_end (flights : List Flight) (cur : Int) (f : Flight)
    (h : (flights.filter (fun g => valid_departure g cur)).getLast? = Option.some f) :
    ∀ (accommodations : List Accommodation) (days day_num : Nat),
      (get_day_start_end_points accommodations flights days day_num cur).2 =
        Option.some (dep_point f) ∧
      f ∈ flights ∧ valid_departure f cur = true := by
  intro accs days day_num
  have hmem : f ∈ flights.filter (fun g => valid_departure g cur) := by
    have hx : f ∈ (flights.filter (fun g => valid_departure g cur)).getLast? :=
      Option.mem_def.mpr h
    obtain ⟨hne, heq⟩ := List.mem_getLast?_eq_getLast hx
    rw [heq]
    exact List.getLast_mem hne
  have hf := List.mem_filter.mp hmem
  refine ⟨?_, hf.1, by simpa using hf.2⟩
  unfold get_day_start_end_points
  simp only [flights_fold_snd]
  rw [fold_end_of_last_valid cur flights _ f h]
  simp

/-- Witness for C7 at concrete inputs: a lodging checkout and a departing
    flight on the same date; the end point is the airport. -/
theorem claim_C7_departure_overrides_end_witness :
    (([{ departure_airport := "DEP", arrival_airport := "ARR",
         departure_time := PyDateVal.d 3, arrival_time := PyDateVal.pynone,
         return_time := PyDateVal.pynone,
         departure_latitude := Option.some 50, departure_longitude := Option.some 8,
         arrival_latitude := Option.none, arrival_longitude := Option.none,
         latitude := Option.none, longitude := Option.none }] :
        List Flight).filter (fun g => valid_departure g 3)).getLast? =
      Option.some
        { departure_airport := "DEP", arrival_airport := "ARR",
          departure_time := PyDateVal.d 3, arrival_time := PyDateVal.pynone,
          return_time := PyDateVal.pynone,
          departure_latitude := Option.some 50, departure_longitude := Option.some 8,
          arrival_latitude := Option.none, arrival_longitude := Option.none,
          latitude := Option.none, longitude := Option.none } ∧
    (get_day_start_end_points
        [{ city := "C", address := "A", check_in_date := .d 0, check_out_date := .d 3,
           latitude := Option.some 31, longitude := Option.some 121 }]
        [{ departure_airport := "DEP", arrival_airport := "ARR",
           departure_time := PyDateVal.d 3, arrival_time := PyDateVal.pynone,
           return_time := PyDateVal.pynone,
           departure_latitude := Option.some 50, departure_longitude := Option.some 8,
           arrival_latitude := Option.none, arrival_longitude := Option.none,
           latitude := Option.none, longitude := Option.none }] 4 4 3).2 =
      Option.some
        (dep_point
          { departure_airport := "DEP", arrival_airport := "ARR",
            departure_time := PyDateVal.d 3, arrival_time := PyDateVal.pynone,
            return_time := PyDateVal.pynone,
            departure_latitude := Option.some 50, departure_longitude := Option.some 8,
            arrival_latitude := Option.none, arrival_longitude := Option.none,
            latitude := Option.none, longitude := Option.none }) :=
  ⟨by decide,
    (claim_C7_departure_overrides_end _ 3 _ (by decide)
      [{ city := "C", address := "A", check_in_date := .d 0, check_out_date := .d 3,
         latitude := Option.some 31, longitude := Option.some 121 }] 4 4).1⟩

/-- A flight both of whose effective coordinate pairs (after the legacy
    `or` fallback) fail the truthiness guards — e.g. every stored
    coordinate is `0` or absent. -/
def effective_coords_falsy (f : Flight) : Bool :=
  !(truthyQ (py_or f.arrival_latitude f.latitude) &&
    truthyQ (py_or f.arrival_longitude f.longitude)) &&
  !(truthyQ (py_or f.departure_latitude f.latitude) &&
    truthyQ (py_or f.departure_longitude f.longitude))

theorem flight_step_start_of_falsy (cur : Int) (st : Option Point) (f : Flight)
    (h : effective_coords_falsy f = true) : flight_step_start cur st f = st := by
  unfold effective_coords_falsy at h
  simp only [Bool.and_eq_true, Bool.not_eq_true', Bool.and_eq_false_iff] at h
  unfold flight_step_start
  cases flight_arrival_date f with
  | none => rfl
  | some a =>
    by_cases ha : a = cur
    · rcases h.1 with h1 | h1 <;> simp [ha, h1]
    · simp [ha]

theorem flight_step_end_of_falsy (cur : Int) (en : Option Point) (f : Flight)
    (h : effective_coords_falsy f = true) : flight_step_end cur en f = en := by
  unfold effective_coords_falsy at h
  simp only [Bool.and_eq_true, Bool.not_eq_true', Bool.and_eq_false_iff] at h
  unfold flight_step_end
  cases to_date f.departure_time with
  | none => rfl
  | some dep =>
    by_cases hd : dep = cur
    · rcases h.2 with h1 | h1 <;> simp [hd, h1]
    · simp [hd]

theorem flights_fold_of_falsy (cur : Int) (l : List Flight)
    (p : Option Point × Option Point) (h : ∀ f ∈ l, effective_coords_falsy f = true) :
    l.foldl (fun q f => flight_step cur q.1 q.2 f) p = p := by
  induction l generalizing p with
  | nil => rfl
  | cons g t ih =>
    simp only [List.foldl_cons]
    have hg := h g (by simp)
    rw [show flight_step cur p.1 p.2 g = p by
      unfold flight_step
      rw [flight_step_start_of_falsy cur p.1 g hg, flight_step_end_of_falsy cur p.2 g hg]]
    exact ih p (fun f hf => h f (by simp [hf]))

theorem first_departure_start_of_falsy (l : List Flight)
    (h : ∀ f ∈ l, effective_coords_falsy f = true) :
    first_departure_start l = Option.none := by
  induction l with
  | nil => rfl
  | cons g t ih =>
    have hg := h g (by simp)
    unfold effective_coords_falsy at hg
    simp only [Bool.and_eq_true, Bool.not_eq_true', Bool.and_eq_false_iff] at hg
    unfold first_departure_start
    cases to_date g.departure_time with
    | none => exact ih (fun f hf => h f (by simp [hf]))
    | some _ =>
      rcases hg.2 with h1 | h1 <;>
        simp [h1, ih (fun f hf => h f (by simp [hf]))]

theorem larf_step_cases (best : Option Flight) (g f : Flight)
    (h : larf_step best g = Option.some f) : f = g ∨ best = Option.some f := by
  unfold larf_step at h
  repeat' split at h
  all_goals
    first
      | exact Or.inr h
      | exact Or.inl (Option.some.inj h).symm

theorem last_arrival_fold_mem (l : List Flight) (best : Option Flight) (f : Flight)
    (h : l.foldl larf_step best = Option.some f) : f ∈ l ∨ best = Option.some f := by
  induction l generalizing best with
  | nil => exact Or.inr h
  | cons g t ih =>
    simp only [List.foldl_cons] at h
    rcases ih (larf_step best g) h with hmem | hbest
    · exact Or.inl (by simp [hmem])
    · rcases larf_step_cases best g f hbest with rfl | hb
      · exact Or.inl (by simp)
      · exact Or.inr hb

theorem last_arrival_flight_mem (l : List Flight) (f : Flight)
    (h : last_arrival_flight l = Option.some f) : f ∈ l := by
  rcases last_arrival_fold_mem l Option.none f h with hmem | hbest
  · exact hmem
  · simp at hbest

theorem raw_arrival_parseable (b : Flight) (hb : b.arrival_time ≠ PyDateVal.badstr)
    (hdate : flight_arrival_date b ≠ Option.none) :
    to_date (raw_arrival_or_return b) ≠ Option.none := by
  unfold raw_arrival_or_return
  cases harr : b.arrival_time with
  | pynone =>
    unfold flight_arrival_date at hdate
    rw [harr] at hdate
    simpa [to_date] using hdate
  | badstr => exact absurd harr hb
  | d n => simp [to_date]
  | dt n => simp [to_date]

theorem larf_step_preserves_inv (best : Option Flight) (g : Flight)
    (hg : g.arrival_time ≠ PyDateVal.badstr)
    (hbest : ∀ b, best = Option.some b →
      b.arrival_time ≠ PyDateVal.badstr ∧ flight_arrival_date b ≠ Option.none) :
    ∀ b, larf_step best g = Option.some b →
      b.arrival_time ≠ PyDateVal.badstr ∧ flight_arrival_date b ≠ Option.none := by
  intro b h
  unfold larf_step at h
  cases harr : flight_arrival_date g with
  | none =>
    simp only [harr] at h
    exact hbest b h
  | some a =>
    simp only [harr] at h
    cases best with
    | none =>
      simp only [Option.some.injEq] at h
      subst h
      exact ⟨hg, by rw [harr]; simp⟩
    | some b0 =>
      obtain ⟨hb0s, hb0d⟩ := hbest b0 rfl
      have hraw : to_date (raw_arrival_or_return b0) ≠ Option.none :=
        raw_arrival_parseable b0 hb0s hb0d
      cases hbd : to_date (raw_arrival_or_return b0) with
      | none => exact absurd hbd hraw
      | some bd =>
        simp only [hbd] at h
        by_cases hab : bd < a
        · rw [if_pos hab, Option.some.injEq] at h
          subst h
          exact ⟨hg, by rw [harr]; simp⟩
        · rw [if_neg hab, Option.some.injEq] at h
          subst h
          exact ⟨hb0s, hb0d⟩

/-- On flight lists without unparseable `arrival_time` strings, the
    latest-arrival selection of the source never reaches its raising
    comparison. -/
theorem last_arrival_raises_of_no_badstr (flights : List Flight)
    (h : ∀ f ∈ flights, f.arrival_time ≠ PyDateVal.badstr) :
    last_arrival_raises flights = false := by
  unfold last_arrival_raises
  suffices hgen : ∀ (l : List Flight) (best : Option Flight),
      (∀ f ∈ l, f.arrival_time ≠ PyDateVal.badstr) →
      (∀ b, best = Option.some b →
        b.arrival_time ≠ PyDateVal.badstr ∧ flight_arrival_date b ≠ Option.none) →
      (l.foldl larf_crashes_step (false, best)).1 = false by
    exact hgen flights Option.none h (by simp)
  intro l
  induction l with
  | nil => intro best _ _; rfl
  | cons g t ih =>
    intro best hl hbest
    simp only [List.foldl_cons]
    have hstep : larf_crashes_step (false, best) g = (false, larf_step best g) := by
      simp only [larf_crashes_step]
      cases harr : flight_arrival_date g with
      | none => rfl
      | some a =>
        cases best with
        | none => rfl
        | some b =>
          have hb := hbest b rfl
          have hpar := raw_arrival_parseable b hb.1 hb.2
          show (if (to_date (raw_arrival_or_return b)).isNone = true
              then ((true : Bool), Option.some b)
              else ((false : Bool), larf_step (Option.some b) g)) =
            ((false : Bool), larf_step (Option.some b) g)
          rw [if_neg (fun hc => hpar (Option.isNone_iff_eq_none.mp hc))]
    rw [hstep]
    exact ih (larf_step best g) (fun f hf => hl f (by simp [hf]))
      (larf_step_preserves_inv best g (hl g (by simp)) hbest)

/-- C10: latitude/longitude values equal to `0` are treated as absent by
    the anchor logic.  (1) On the crash-free domain of the latest-arrival
    selection (`last_arrival_raises` false — elsewhere the source raises
    `TypeError` at line 554 regardless of coordinates), a list of flights
    all of whose effective arrival and departure coordinates fail the
    truthiness guards contributes nothing: anchor derivation gives the
    same result as with no flights at all.
    (2) `_geocode_accommodation` treats stored `(0, 0)` coordinates as
    invalid and falls through to the geocoding path.  (3) The anchor loop
    skips an accommodation whose stored coordinates are `(0, 0)`. -/
theorem claim_C10_zero_coordinates :
    (∀ (accommodations : List Accommodation) (flights : List Flight)
       (days day_num : Nat) (cur : Int),
       (∀ f ∈ flights, effective_coords_falsy f = true) →
       last_arrival_raises flights = false →
       get_day_start_end_points accommodations flights days day_num cur =
         get_day_start_end_points accommodations [] days day_num cur) ∧
    (∀ (g : Geocoder) (acc : Accommodation),
       acc.latitude = Option.some 0 → acc.longitude = Option.some 0 →
       geocode_accommodation g acc = try_geocode_acc g acc) ∧
    (∀ (cur : Int) (st en : Option Point) (acc : Accommodation),
       acc.latitude = Option.some 0 → acc.longitude = Option.some 0 →
       acc_step cur st en acc = (st, en)) := by
  refine ⟨?_, ?_, ?_⟩
  · intro accs flights days day_num cur h _hsafe
    simp only [get_day_start_end_points, List.foldl_nil]
    rw [flights_fold_of_falsy cur flights _ h,
        first_departure_start_of_falsy flights h]
    cases hla : last_arrival_flight flights with
    | none => simp [last_arrival_flight, first_departure_start]
    | some f =>
      have hf := h f (last_arrival_flight_mem flights f hla)
      unfold effective_coords_falsy at hf
      simp only [Bool.and_eq_true, Bool.not_eq_true', Bool.and_eq_false_iff] at hf
      rcases hf.1 with h1 | h1 <;>
        simp [last_arrival_flight, first_departure_start, h1]
  · intro g acc h1 h2
    unfold geocode_accommodation
    rw [h1, h2]
    norm_num
  · intro cur st en acc h1 h2
    unfold acc_step
    cases to_date acc.check_in_date with
    | none => rfl
    | some ci => simp [h1, h2, truthyQ]

/-- Witness for C10 at concrete inputs: an all-zero-coordinate flight on
    matching dates (with parseable date fields, so the latest-arrival
    selection cannot raise) contributes nothing, and a `(0, 0)`
    accommodation is treated as coordinate-less by both the backfill and
    the anchor loop. -/
theorem claim_C10_zero_coordinates_witness :
    (∀ f ∈ [({ departure_airport := "DEP", arrival_airport := "ARR",
               departure_time := PyDateVal.d 0, arrival_time := PyDateVal.d 0,
               return_time := PyDateVal.pynone,
               departure_latitude := Option.some 0, departure_longitude := Option.some 0,
               arrival_latitude := Option.some 0, arrival_longitude := Option.some 0,
               latitude := Option.some 0, longitude := Option.some 0 } : Flight)],
       effective_coords_falsy f = true) ∧
    last_arrival_raises
      [{ departure_airport := "DEP", arrival_airport := "ARR",
         departure_time := PyDateVal.d 0, arrival_time := PyDateVal.d 0,
         return_time := PyDateVal.pynone,
         departure_latitude := Option.some 0, departure_longitude := Option.some 0,
         arrival_latitude := Option.some 0, arrival_longitude := Option.some 0,
         latitude := Option.some 0, longitude := Option.some 0 }] = false ∧
    get_day_start_end_points []
        [{ departure_airport := "DEP", arrival_airport := "ARR",
           departure_time := PyDateVal.d 0, arrival_time := PyDateVal.d 0,
           return_time := PyDateVal.pynone,
           departure_latitude := Option.some 0, departure_longitude := Option.some 0,
           arrival_latitude := Option.some 0, arrival_longitude := Option.some 0,
           latitude := Option.some 0, longitude := Option.some 0 }] 1 1 0 =
      get_day_start_end_points [] [] 1 1 0 ∧
    geocode_accommodation (fun _ _ => Option.none)
        { city := "C", address := "A", check_in_date := .d 0, check_out_date := .d 1,
          latitude := Option.some 0, longitude := Option.some 0 } =
      try_geocode_acc (fun _ _ => Option.none)
        { city := "C", address := "A", check_in_date := .d 0, check_out_date := .d 1,
          latitude := Option.some 0, longitude := Option.some 0 } ∧
    acc_step 0 Option.none Option.none
        { city := "C", address := "A", check_in_date := .d 0, check_out_date := .d 1,
          latitude := Option.some 0, longitude := Option.some 0 } =
      (Option.none, Option.none) :=
  ⟨by decide,
   by decide,
   claim_C10_zero_coordinates.1 [] _ 1 1 0 (by decide) (by decide),
   claim_C10_zero_coordinates.2.1 _ _ rfl rfl,
   claim_C10_zero_coordinates.2.2 0 Option.none Option.none _ rfl rfl⟩

/-- A geocoder that resolves every query to `(10, 20)`. -/
def c8_geocoder : Geocoder := fun _ _ => Option.some ⟨Option.some 10, Option.some 20⟩

/-- An accommodation row with no stored coordinates. -/
def c8_acc : Accommodation :=
  { city := "C", address := "A", check_in_date := .d 0, check_out_date := .d 3,
    latitude := Option.none, longitude := Option.none }

/-- C8 counterexample: an accommodation with no stored coordinates is NOT
    skipped for anchor derivation — the pipeline geocodes it
    (`_geocode_accommodation`, stream line 358) and the geocoded
    coordinates `(10, 20)` become the day's start anchor, so anchor
    coordinates do not come only from the authoritative TripFacts
    records. -/
theorem claim_C8_counterexample :
    c8_acc.latitude = Option.none ∧ c8_acc.longitude = Option.none ∧
    (get_day_start_end_points ([c8_acc].map (geocode_accommodation c8_geocoder))
        [] 4 1 0).1 =
      Option.some { lat := 10, lng := 20, name := "A", category := "住宿",
                    ptype := "accommodation" } :=
  ⟨rfl, rfl, by decide⟩

theorem geocode_flight_arr_departure_fields (g : Geocoder) (dest : String) (f : Flight) :
    (geocode_flight_arr g dest f).departure_latitude = f.departure_latitude ∧
    (geocode_flight_arr g dest f).departure_longitude = f.departure_longitude := by
  unfold geocode_flight_arr
  repeat' split
  all_goals exact ⟨rfl, rfl⟩

/-- C8 amended: anchor derivation prefers the authoritative stored
    coordinates — (i) an accommodation with stored coordinates other than
    `(0, 0)` passes through the backfill unchanged, for any geocoder —
    but (ii) an accommodation lacking valid stored coordinates is
    geocoded from its city and address, (iii) a flight whose departure
    coordinates are not truthy gets its departure airport geocoded by
    name, and (iv) only records whose coordinates are still not truthy
    after the backfill are skipped by the anchor loop. -/
theorem claim_C8_amended :
    (∀ (g : Geocoder) (acc : Accommodation) (la lo : ℚ),
       acc.latitude = Option.some la → acc.longitude = Option.some lo →
       (la ≠ 0 ∨ lo ≠ 0) → geocode_accommodation g acc = acc) ∧
    (∀ (g : Geocoder) (acc : Accommodation) (glat glng : ℚ),
       (acc.latitude = Option.none ∨ acc.longitude = Option.none ∨
        (acc.latitude = Option.some 0 ∧ acc.longitude = Option.some 0)) →
       acc.city ≠ "" → acc.address ≠ "" →
       g (acc.city ++ " " ++ acc.address) acc.city =
         Option.some { latitude := Option.some glat, longitude := Option.some glng } →
       geocode_accommodation g acc =
         { acc with latitude := Option.some glat, longitude := Option.some glng }) ∧
    (∀ (g : Geocoder) (dest : String) (f : Flight) (glat glng : ℚ),
       f.departure_airport ≠ "" →
       ¬(truthyQ f.departure_latitude = true ∧ truthyQ f.departure_longitude = true) →
       g (dest ++ " " ++ f.departure_airport) dest =
         Option.some { latitude := Option.some glat, longitude := Option.some glng } →
       glat ≠ 0 → glng ≠ 0 →
       (geocode_flight g dest f).departure_latitude = Option.some glat ∧
       (geocode_flight g dest f).departure_longitude = Option.some glng) ∧
    (∀ (cur : Int) (st en : Option Point) (acc : Accommodation),
       ¬(truthyQ acc.latitude = true ∧ truthyQ acc.longitude = true) →
       acc_step cur st en acc = (st, en)) := by
  refine ⟨?_, ?_, ?_, ?_⟩
  · intro g acc la lo h1 h2 h3
    unfold geocode_accommodation
    rw [h1, h2]
    simp [h3]
  · intro g acc glat glng h0 hc ha hg
    have htry : try_geocode_acc g acc =
        { acc with latitude := Option.some glat, longitude := Option.some glng } := by
      unfold try_geocode_acc
      rw [if_pos ⟨hc, ha⟩, hg]
      simp
    unfold geocode_accommodation
    rcases h0 with h0 | h0 | ⟨h01, h02⟩
    · rw [h0]
      cases acc.longitude <;> exact htry
    · rw [h0]
      cases acc.latitude <;> exact htry
    · rw [h01, h02]
      simpa using htry
  · intro g dest f glat glng h1 h2 hg hlat hlng
    have hdep : geocode_flight_dep g dest f =
        { f with departure_latitude := Option.some glat,
                 departure_longitude := Option.some glng } := by
      unfold geocode_flight_dep
      rw [if_pos h1, if_pos h2, hg]
      simp [truthyQ, bne_iff_ne, hlat, hlng]
    unfold geocode_flight
    rw [hdep]
    obtain ⟨harr1, harr2⟩ := geocode_flight_arr_departure_fields g dest
      { f with departure_latitude := Option.some glat,
               departure_longitude := Option.some glng }
    unfold geocode_flight_legacy
    rw [harr1]
    simp [truthyQ, bne_iff_ne, hlat, harr1, harr2]
  · intro cur st en acc h
    unfold acc_step
    cases to_date acc.check_in_date with
    | none => rfl
    | some ci => simp [h]

/-- Witness for C8-amended at concrete inputs. -/
theorem claim_C8_amended_witness :
    geocode_accommodation c8_geocoder
        { city := "C", address := "A", check_in_date := .d 0, check_out_date := .d 3,
          latitude := Option.some 31, longitude := Option.some 121 } =
      { city := "C", address := "A", check_in_date := .d 0, check_out_date := .d 3,
        latitude := Option.some 31, longitude := Option.some 121 } ∧
    geocode_accommodation c8_geocoder c8_acc =
      { c8_acc with latitude := Option.some 10, longitude := Option.some 20 } ∧
    acc_step 0 Option.none Option.none c8_acc = (Option.none, Option.none) :=
  ⟨claim_C8_amended.1 c8_geocoder _ 31 121 rfl rfl (Or.inl (by norm_num)),
   claim_C8_amended.2.1 c8_geocoder c8_acc 10 20 (Or.inl rfl) (by decide) (by decide) rfl,
   claim_C8_amended.2.2.2 0 Option.none Option.none c8_acc (by decide)⟩

/-- C2 failing input: one morning activity dict that already carries
    coordinates. -/
def c2_act : Json :=
  .obj [("type", .str "spot"), ("name", .str "A"),
        ("latitude", .num 1), ("longitude", .num 2)]

/-- C2 failing input: the parsed itinerary whose `day_1` schedule has one
    morning activity. -/
def c2_itinerary : Json :=
  .obj [("day_1", .obj [("schedule",
    .obj [("morning", .arr [c2_act]), ("afternoon", .arr []), ("evening", .arr [])])])]

/-- C2 context: no recommendations, no trip facts, failing geocoder. -/
def c2_ctx : DayCtx :=
  { destination := "X", start_date := 0, days := 1, attractions := [], restaurants := [],
    accommodations := [], flights := [], geocode := fun _ _ => Option.none }

/-- C2 (code bug): the schedule of day 1 contains exactly one morning
    activity (`k = 1`, and the event's own stats block reports it), yet
    the emitted day event carries zero normalized items in the morning
    group — and zero everywhere.  The per-item normalization block of the
    schedule branch (travel_service.py lines 761-802) is indented outside
    the `for seg` / `for idx, act` loops, so it runs once with leftover
    loop variables and in this case appends nothing (the last activity
    already has coordinates). -/
theorem claim_C2_schedule_items_lost :
    (as_list (((c2_itinerary.get "day_1").get "schedule").get "morning")).length = 1 ∧
    (build_day_event c2_ctx c2_itinerary 1).stats.sched_morning = 1 ∧
    (build_day_event c2_ctx c2_itinerary 1).items.morning.length = 0 ∧
    (build_day_event c2_ctx c2_itinerary 1).items.afternoon.length = 0 ∧
    (build_day_event c2_ctx c2_itinerary 1).items.evening.length = 0 :=
  ⟨rfl, rfl, rfl, rfl, rfl⟩

/-! ## Stream-trace lemmas -/

theorem day_loop_ok (persist : Nat → Except String Unit) (payload : Nat → DayPayload)
    (l : List Nat) (h : ∀ d ∈ l, persist d = .ok ()) :
    day_loop persist payload l =
      (l.flatMap (fun d =>
        [TraceItem.persist_done d, TraceItem.ev (.day d (payload d))]),
       Option.none) := by
  induction l with
  | nil => rfl
  | cons d ds ih =>
    unfold day_loop
    rw [h d (by simp), ih (fun k hk => h k (by simp [hk]))]
    simp

theorem day_loop_err (persist : Nat → Except String Unit) (payload : Nat → DayPayload)
    (l1 : List Nat) (d : Nat) (l2 : List Nat) (msg : String)
    (hok : ∀ k ∈ l1, persist k = .ok ()) (herr : persist d = .error msg) :
    day_loop persist payload (l1 ++ d :: l2) =
      (l1.flatMap (fun k =>
        [TraceItem.persist_done k, TraceItem.ev (.day k (payload k))]),
       Option.some msg) := by
  induction l1 with
  | nil =>
    simp only [List.nil_append, List.flatMap_nil]
    unfold day_loop
    rw [herr]
  | cons a t ih =>
    simp only [List.cons_append]
    unfold day_loop
    rw [hok a (by simp), ih (fun k hk => hok k (by simp [hk]))]
    simp

theorem dayNumbers_append (a b : List TraceItem) :
    dayNumbers (a ++ b) = dayNumbers a ++ dayNumbers b := by
  simp [dayNumbers, List.filterMap_append]

theorem dayNumbers_day_flatMap (payload : Nat → DayPayload) (l : List Nat) :
    dayNumbers (l.flatMap (fun d =>
      [TraceItem.persist_done d, TraceItem.ev (.day d (payload d))])) = l := by
  induction l with
  | nil => rfl
  | cons d ds ih => simp [dayNumbers, List.filterMap_append] at ih ⊢; exact ih

theorem dayNumbers_llm (llm : LLMMode) : dayNumbers (llm_trace llm).1 = [] := by
  cases llm with
  | streaming chunks =>
    simp [llm_trace, dayNumbers, List.filterMap_append, List.filterMap_map,
      Function.comp]
  | single_shot content => rfl

theorem hasError_append (a b : List TraceItem) :
    hasError (a ++ b) = (hasError a || hasError b) := by
  simp [hasError, List.any_append]

theorem hasError_day_flatMap (payload : Nat → DayPayload) (l : List Nat) :
    hasError (l.flatMap (fun d =>
      [TraceItem.persist_done d, TraceItem.ev (.day d (payload d))])) = false := by
  induction l with
  | nil => rfl
  | cons d ds ih => simp_all [hasError, List.any_append]

theorem hasError_llm (llm : LLMMode) : hasError (llm_trace llm).1 = false := by
  cases llm with
  | streaming chunks =>
    unfold llm_trace hasError
    rw [List.any_eq_false]
    intro x hx
    simp only [List.mem_append, List.mem_cons, List.not_mem_nil, or_false,
      List.mem_map] at hx
    rcases hx with (rfl | ⟨t, _, rfl⟩) | rfl <;> simp
  | single_shot content => rfl

/-- Whether a trace contains a `result` event. -/
def hasResult (trace : List TraceItem) : Bool :=
  trace.any (fun it =>
    match it with
    | TraceItem.ev .result => true
    | _ => false)

theorem hasResult_append (a b : List TraceItem) :
    hasResult (a ++ b) = (hasResult a || hasResult b) := by
  simp [hasResult, List.any_append]

theorem hasResult_day_flatMap (payload : Nat → DayPayload) (l : List Nat) :
    hasResult (l.flatMap (fun d =>
      [TraceItem.persist_done d, TraceItem.ev (.day d (payload d))])) = false := by
  induction l with
  | nil => rfl
  | cons d ds ih => simp_all [hasResult, List.any_append]

theorem hasResult_llm (llm : LLMMode) : hasResult (llm_trace llm).1 = false := by
  cases llm with
  | streaming chunks =>
    unfold llm_trace hasResult
    rw [List.any_eq_false]
    intro x hx
    simp only [List.mem_append, List.mem_cons, List.not_mem_nil, or_false,
      List.mem_map] at hx
    rcases hx with (rfl | ⟨t, _, rfl⟩) | rfl <;> simp
  | single_shot content => rfl

/-- C1: in every successful run (persistence never raises on days
    `1..N`), the emitted trace is exactly the comment frame, `started`,
    `heartbeat`, the LLM progress/token phase, `progress(parse_json)`,
    `progress(fetch_recommendations)`, `progress(persist)`, then — for
    each day `d = 1..N` in ascending order — the completion of day `d`'s
    persistence call immediately followed by day `d`'s `day` event, and
    finally `result`; the `day` events carry exactly the day numbers
    `1..N` in ascending order, and no `error` event occurs. -/
theorem claim_C1_success_event_order (ctx : StreamCtx) (llm : LLMMode)
    (persist : Nat → Except String Unit)
    (h : ∀ d ∈ List.range' 1 ctx.days, persist d = .ok ()) :
    generate_itinerary_stream ctx llm persist =
      [TraceItem.comment, TraceItem.ev .started, TraceItem.ev .heartbeat]
        ++ (llm_trace llm).1
        ++ [TraceItem.ev (.progress "parse_json"),
            TraceItem.ev (.progress "fetch_recommendations"),
            TraceItem.ev (.progress "persist")]
        ++ ((List.range' 1 ctx.days).flatMap (fun d =>
              [TraceItem.persist_done d,
               TraceItem.ev (.day d (build_day_event ctx.dayCtx
                 (if (parse_itinerary_response (llm_trace llm).2 ctx.days).isObj then
                    parse_itinerary_response (llm_trace llm).2 ctx.days
                  else Json.obj []) d))]))
        ++ [TraceItem.ev .result] ∧
    dayNumbers (generate_itinerary_stream ctx llm persist) = List.range' 1 ctx.days ∧
    hasError (generate_itinerary_stream ctx llm persist) = false := by
  have htrace : generate_itinerary_stream ctx llm persist =
      [TraceItem.comment, TraceItem.ev .started, TraceItem.ev .heartbeat]
        ++ (llm_trace llm).1
        ++ [TraceItem.ev (.progress "parse_json"),
            TraceItem.ev (.progress "fetch_recommendations"),
            TraceItem.ev (.progress "persist")]
        ++ ((List.range' 1 ctx.days).flatMap (fun d =>
              [TraceItem.persist_done d,
               TraceItem.ev (.day d (build_day_event ctx.dayCtx
                 (if (parse_itinerary_response (llm_trace llm).2 ctx.days).isObj then
                    parse_itinerary_response (llm_trace llm).2 ctx.days
                  else Json.obj []) d))]))
        ++ [TraceItem.ev .result] := by
    simp only [generate_itinerary_stream]
    rw [day_loop_ok persist _ (List.range' 1 ctx.days) h]
    rfl
  refine ⟨htrace, ?_, ?_⟩
  · rw [htrace]
    simp only [dayNumbers_append, dayNumbers_llm, dayNumbers_day_flatMap]
    simp [dayNumbers]
  · rw [htrace]
    simp only [hasError_append, hasError_llm, hasError_day_flatMap]
    simp [hasError]

/-- A trivial context for stream witnesses: two days, no recommendations,
    no trip facts, failing geocoder. -/
def c1_ctx : StreamCtx :=
  { destination := "X", start_date := 0, days := 2, attractions_raw := [],
    restaurants_raw := [], flights_raw := [], accommodations_raw := [],
    geocode := fun _ _ => Option.none }

/-- A persistence collaborator that always succeeds. -/
def c1_persist : Nat → Except String Unit := fun _ => .ok ()

/-- Witness for C1 at concrete inputs. -/
theorem claim_C1_success_event_order_witness :
    (∀ d ∈ List.range' 1 c1_ctx.days, c1_persist d = .ok ()) ∧
    dayNumbers (generate_itinerary_stream c1_ctx
      (.streaming [Option.some "x"]) c1_persist) = List.range' 1 c1_ctx.days ∧
    hasError (generate_itinerary_stream c1_ctx
      (.streaming [Option.some "x"]) c1_persist) = false :=
  ⟨fun _ _ => rfl,
   (claim_C1_success_event_order c1_ctx (.streaming [Option.some "x"]) c1_persist
      (fun _ _ => rfl)).2.1,
   (claim_C1_success_event_order c1_ctx (.streaming [Option.some "x"]) c1_persist
      (fun _ _ => rfl)).2.2⟩

/-- C4: if persistence raises on day `d` (days `1..d-1` having succeeded),
    the stream emits the frames up to and including day `d-1`'s event and
    then exactly one `error` frame carrying the exception message, and
    terminates: no `day` event with a number `≥ d` and no `result` event
    is ever emitted. -/
theorem claim_C4_error_short_circuit (ctx : StreamCtx) (llm : LLMMode)
    (persist : Nat → Except String Unit) (d : Nat) (msg : String)
    (hd1 : 1 ≤ d) (hdn : d ≤ ctx.days)
    (hok : ∀ k ∈ List.range' 1 (d - 1), persist k = .ok ())
    (herr : persist d = .error msg) :
    generate_itinerary_stream ctx llm persist =
      [TraceItem.comment, TraceItem.ev .started, TraceItem.ev .heartbeat]
        ++ (llm_trace llm).1
        ++ [TraceItem.ev (.progress "parse_json"),
            TraceItem.ev (.progress "fetch_recommendations"),
            TraceItem.ev (.progress "persist")]
        ++ ((List.range' 1 (d - 1)).flatMap (fun k =>
              [TraceItem.persist_done k,
               TraceItem.ev (.day k (build_day_event ctx.dayCtx
                 (if (parse_itinerary_response (llm_trace llm).2 ctx.days).isObj then
                    parse_itinerary_response (llm_trace llm).2 ctx.days
                  else Json.obj []) k))]))
        ++ [TraceItem.ev (.error msg)] ∧
    dayNumbers (generate_itinerary_stream ctx llm persist) = List.range' 1 (d - 1) ∧
    (∀ k, d ≤ k → k ∉ dayNumbers (generate_itinerary_stream ctx llm persist)) ∧
    hasResult (generate_itinerary_stream ctx llm persist) = false := by
  have hsplit : List.range' 1 ctx.days =
      List.range' 1 (d - 1) ++ d :: List.range' (d + 1) (ctx.days - d) := by
    have h1 : ctx.days = (ctx.days - d + 1) + (d - 1) := by omega
    calc List.range' 1 ctx.days
        = List.range' 1 ((ctx.days - d + 1) + (d - 1)) := by rw [← h1]
      _ = List.range' 1 (d - 1) ++ List.range' (1 + 1 * (d - 1)) (ctx.days - d + 1) :=
          (List.range'_append 1 (d - 1) (ctx.days - d + 1) 1).symm
      _ = List.range' 1 (d - 1) ++ List.range' d (ctx.days - d + 1) := by
          rw [show 1 + 1 * (d - 1) = d by omega]
      _ = List.range' 1 (d - 1) ++ (d :: List.range' (d + 1) (ctx.days - d)) := by
          rw [List.range'_succ]
  have htrace : generate_itinerary_stream ctx llm persist =
      [TraceItem.comment, TraceItem.ev .started, TraceItem.ev .heartbeat]
        ++ (llm_trace llm).1
        ++ [TraceItem.ev (.progress "parse_json"),
            TraceItem.ev (.progress "fetch_recommendations"),
            TraceItem.ev (.progress "persist")]
        ++ ((List.range' 1 (d - 1)).flatMap (fun k =>
              [TraceItem.persist_done k,
               TraceItem.ev (.day k (build_day_event ctx.dayCtx
                 (if (parse_itinerary_response (llm_trace llm).2 ctx.days).isObj then
                    parse_itinerary_response (llm_trace llm).2 ctx.days
                  else Json.obj []) k))]))
        ++ [TraceItem.ev (.error msg)] := by
    simp only [generate_itinerary_stream]
    rw [hsplit, day_loop_err persist _ (List.range' 1 (d - 1)) d
      (List.range' (d + 1) (ctx.days - d)) msg hok herr]
    rfl
  have hdays : dayNumbers (generate_itinerary_stream ctx llm persist) =
      List.range' 1 (d - 1) := by
    rw [htrace]
    simp only [dayNumbers_append, dayNumbers_llm, dayNumbers_day_flatMap]
    simp [dayNumbers]
  refine ⟨htrace, hdays, ?_, ?_⟩
  · intro k hk hmem
    rw [hdays, List.mem_range'_1] at hmem
    omega
  · rw [htrace]
    simp only [hasResult_append, hasResult_llm, hasResult_day_flatMap]
    simp [hasResult]

/-- The failing persistence collaborator of the C4 witness: raises on
    day 2. -/
def c4_persist : Nat → Except String Unit :=
  fun d => if d = 2 then .error "boom" else .ok ()

/-- The five-day context of the C4 witness. -/
def c4_ctx : StreamCtx :=
  { destination := "X", start_date := 0, days := 5, attractions_raw := [],
    restaurants_raw := [], flights_raw := [], accommodations_raw := [],
    geocode := fun _ _ => Option.none }

/-- Witness for C4 at concrete inputs: persistence raising on day 2 of a
    5-day plan. -/
theorem claim_C4_error_short_circuit_witness :
    (∀ k ∈ List.range' 1 (2 - 1), c4_persist k = .ok ()) ∧
    c4_persist 2 = .error "boom" ∧
    dayNumbers (generate_itinerary_stream c4_ctx (.single_shot Option.none) c4_persist) =
      List.range' 1 1 ∧
    (3 ∉ dayNumbers (generate_itinerary_stream c4_ctx (.single_shot Option.none) c4_persist)) ∧
    hasResult (generate_itinerary_stream c4_ctx (.single_shot Option.none) c4_persist) = false :=
  ⟨fun k hk => by
     rw [show List.range' 1 (2 - 1) = [1] from rfl] at hk
     simp only [List.mem_singleton] at hk
     subst hk
     rfl,
   rfl,
   (claim_C4_error_short_circuit c4_ctx (.single_shot Option.none) c4_persist 2 "boom"
      (by norm_num) (by decide)
      (fun k hk => by
        rw [show List.range' 1 (2 - 1) = [1] from rfl] at hk
        simp only [List.mem_singleton] at hk
        subst hk
        rfl) rfl).2.1,
   (claim_C4_error_short_circuit c4_ctx (.single_shot Option.none) c4_persist 2 "boom"
      (by norm_num) (by decide)
      (fun k hk => by
        rw [show List.range' 1 (2 - 1) = [1] from rfl] at hk
        simp only [List.mem_singleton] at hk
        subst hk
        rfl) rfl).2.2.1 3 (by norm_num),
   (claim_C4_error_short_circuit c4_ctx (.single_shot Option.none) c4_persist 2 "boom"
      (by norm_num) (by decide)
      (fun k hk => by
        rw [show List.range' 1 (2 - 1) = [1] from rfl] at hk
        simp only [List.mem_singleton] at hk
        subst hk
        rfl) rfl).2.2.2⟩

theorem token_not_in_day_loop (persist : Nat → Except String Unit)
    (payload : Nat → DayPayload) (l : List Nat) (s : String) :
    TraceItem.ev (.token s) ∉ (day_loop persist payload l).1 := by
  induction l with
  | nil => simp [day_loop]
  | cons d ds ih =>
    unfold day_loop
    cases hp : persist d with
    | error e => simp
    | ok u => simp [ih]

theorem token_not_in_final_frame (s : String) (o : Option String) :
    TraceItem.ev (.token s) ∉ final_frame o := by
  cases o <;> simp [final_frame]

theorem llm_streaming_token_nonempty (chunks : List (Option String)) (s : String)
    (h : TraceItem.ev (.token s) ∈ (llm_trace (.streaming chunks)).1) : s ≠ "" := by
  unfold llm_trace at h
  simp only [List.mem_append, List.mem_cons, List.not_mem_nil, or_false,
    List.mem_map] at h
  rcases h with (h | ⟨t, ht, heq⟩) | h
  · simp at h
  · cases heq
    obtain ⟨c, _, hm⟩ := List.mem_filterMap.mp ht
    cases c with
    | none => simp at hm
    | some u =>
      by_cases hu : u = ""
      · simp [hu] at hm
      · simp only [hu, if_false] at hm
        rw [Option.some.injEq] at hm
        rw [← hm]
        exact hu
  · simp at h

/-- The one-day context of the C5 counterexample. -/
def c5_ctx : StreamCtx :=
  { destination := "X", start_date := 0, days := 1, attractions_raw := [],
    restaurants_raw := [], flights_raw := [], accommodations_raw := [],
    geocode := fun _ _ => Option.none }

/-- C5 counterexample: in the single-shot branch a `None` response text is
    coerced to `""` and a token event with an EMPTY delta is emitted
    unconditionally (`yield sse("token", {"delta": text_buf})`, source
    line 263), so "no token event with empty delta is ever emitted" fails
    on the code.  The full trace of the run is shown; its fifth frame is
    the empty token event. -/
theorem claim_C5_counterexample :
    generate_itinerary_stream c5_ctx (.single_shot Option.none) c1_persist =
      [TraceItem.comment, TraceItem.ev .started, TraceItem.ev .heartbeat,
       TraceItem.ev (.progress "llm_invoke"), TraceItem.ev (.token ""),
       TraceItem.ev (.progress "parse_json"),
       TraceItem.ev (.progress "fetch_recommendations"),
       TraceItem.ev (.progress "persist"),
       TraceItem.persist_done 1,
       TraceItem.ev (.day 1
         { day_number := 1,
           items := { morning := [], afternoon := [], evening := [] },
           stats := { spots := 0, restaurants := 0, sched_morning := 0,
                      sched_afternoon := 0, sched_evening := 0, grouped_morning := 0,
                      grouped_afternoon := 0, grouped_evening := 0 },
           start_point := Option.none, end_point := Option.none }),
       TraceItem.ev .result] := rfl

/-- C5 amended: in the streaming branch no token event ever carries an
    empty delta (falsy chunks are skipped), but in the single-shot branch
    exactly one token event is emitted unconditionally, carrying
    `resp.content or ""` — the empty string when the response text is
    empty or `None`. -/
theorem claim_C5_amended :
    (∀ (ctx : StreamCtx) (chunks : List (Option String))
       (persist : Nat → Except String Unit) (s : String),
       TraceItem.ev (.token s) ∈ generate_itinerary_stream ctx (.streaming chunks) persist →
       s ≠ "") ∧
    (∀ content : Option String,
       (llm_trace (.single_shot content)).1 =
         [TraceItem.ev (.progress "llm_invoke"),
          TraceItem.ev (.token (content.getD ""))]) := by
  constructor
  · intro ctx chunks persist s hmem
    simp only [generate_itinerary_stream] at hmem
    simp only [List.mem_append] at hmem
    rcases hmem with ((((h | h) | h) | h) | h)
    · simp at h
    · exact llm_streaming_token_nonempty chunks s h
    · simp at h
    · exact absurd h (token_not_in_day_loop _ _ _ _)
    · exact absurd h (token_not_in_final_frame _ _)
  · intro content
    rfl

/-- Witness for C5-amended at a concrete input: the only token event of a
    streaming run with chunks `[None, "", "x"]` carries `"x"`, which is
    non-empty. -/
theorem claim_C5_amended_witness :
    (TraceItem.ev (.token "x") ∈ generate_itinerary_stream c5_ctx
      (.streaming [Option.none, Option.some "", Option.some "x"]) c1_persist) ∧
    "x" ≠ "" :=
  ⟨by
     rw [show generate_itinerary_stream c5_ctx
        (.streaming [Option.none, Option.some "", Option.some "x"]) c1_persist =
        [TraceItem.comment, TraceItem.ev .started, TraceItem.ev .heartbeat,
         TraceItem.ev (.progress "llm_stream_start"), TraceItem.ev (.token "x"),
         TraceItem.ev (.progress "llm_stream_end"),
         TraceItem.ev (.progress "parse_json"),
         TraceItem.ev (.progress "fetch_recommendations"),
         TraceItem.ev (.progress "persist"),
         TraceItem.persist_done 1,
         TraceItem.ev (.day 1
           { day_number := 1,
             items := { morning := [], afternoon := [], evening := [] },
             stats := { spots := 0, restaurants := 0, sched_morning := 0,
                        sched_afternoon := 0, sched_evening := 0, grouped_morning := 0,
                        grouped_afternoon := 0, grouped_evening := 0 },
             start_point := Option.none, end_point := Option.none }),
         TraceItem.ev .result] from rfl]
     simp,
   claim_C5_amended.1 c5_ctx [Option.none, Option.some "", Option.some "x"] c1_persist "x"
     (by
       rw [show generate_itinerary_stream c5_ctx
          (.streaming [Option.none, Option.some "", Option.some "x"]) c1_persist =
          [TraceItem.comment, TraceItem.ev .started, TraceItem.ev .heartbeat,
           TraceItem.ev (.progress "llm_stream_start"), TraceItem.ev (.token "x"),
           TraceItem.ev (.progress "llm_stream_end"),
           TraceItem.ev (.progress "parse_json"),
           TraceItem.ev (.progress "fetch_recommendations"),
           TraceItem.ev (.progress "persist"),
           TraceItem.persist_done 1,
           TraceItem.ev (.day 1
             { day_number := 1,
               items := { morning := [], afternoon := [], evening := [] },
               stats := { spots := 0, restaurants := 0, sched_morning := 0,
                          sched_afternoon := 0, sched_evening := 0, grouped_morning := 0,
                          grouped_afternoon := 0, grouped_evening := 0 },
               start_point := Option.none, end_point := Option.none }),
           TraceItem.ev .result] from rfl]
       simp)⟩

/-! ## Claims about the response parser -/

/-- The members of a JSON object (empty for non-objects). -/
def Json.members : Json → List (String × Json)
  | .obj kvs => kvs
  | _ => []

theorem parseStrategy1_isObj (raw : String) (v : Json)
    (h : parseStrategy1 raw = Option.some v) : v.isObj = true := by
  unfold parseStrategy1 at h
  repeat' split at h
  all_goals simp_all

theorem scanForObject_isObj (cs : List Char) (v : Json)
    (h : scanForObject cs = Option.some v) : v.isObj = true := by
  induction cs with
  | nil => simp [scanForObject] at h
  | cons c rest ih =>
    unfold scanForObject at h
    by_cases hc : c = '{'
    · rw [if_pos hc] at h
      split at h
      · split at h
        · rename_i w r hsplit hobj
          rw [Option.some.injEq] at h
          rw [← h]
          exact hobj
        · exact ih h
      · exact ih h
    · rw [if_neg hc] at h
      exact ih h

theorem parseStrategy3_isObj (raw : String) (v : Json)
    (h : parseStrategy3 raw = Option.some v) : v.isObj = true := by
  simp only [parseStrategy3] at h
  repeat' split at h
  all_goals simp_all

/-- All three strategies of `_parse_itinerary_response` fail on the
    cleaned text. -/
def parse_strategies_fail (response_text : String) : Prop :=
  parseStrategy1 (strip_code_fences (pyStrip response_text)) = Option.none ∧
  scanForObject (strip_code_fences (pyStrip response_text)).toList = Option.none ∧
  parseStrategy3 (strip_code_fences (pyStrip response_text)) = Option.none

/-- C3: the parser is total, never yields a non-dict, and degrades to the
    default shape: (1) for every input the result is a dict; (2) when all
    three strategies fail, the result is exactly the default itinerary;
    (3) the default itinerary has exactly `days` members keyed
    `day_1..day_N` in order, each with an empty
    morning/afternoon/evening schedule and an empty tip. -/
theorem claim_C3_garbage_fallback :
    (∀ (s : String) (days : Nat), (parse_itinerary_response s days).isObj = true) ∧
    (∀ (s : String) (days : Nat), parse_strategies_fail s →
       parse_itinerary_response s days = default_itinerary days) ∧
    (∀ days : Nat,
       (default_itinerary days).isObj = true ∧
       (default_itinerary days).members.map Prod.fst =
         (List.range' 1 days).map (fun d => "day_" ++ toString d) ∧
       ∀ kv ∈ (default_itinerary days).members,
         kv.2.get "schedule" =
           .obj [("morning", .arr []), ("afternoon", .arr []), ("evening", .arr [])] ∧
         kv.2.get "tips" = .str "") := by
  refine ⟨?_, ?_, ?_⟩
  · intro s days
    simp only [parse_itinerary_response]
    cases h1 : parseStrategy1 (strip_code_fences (pyStrip s)) with
    | some v => exact parseStrategy1_isObj _ v h1
    | none =>
      cases h2 : scanForObject (strip_code_fences (pyStrip s)).toList with
      | some v => exact scanForObject_isObj _ v h2
      | none =>
        cases h3 : parseStrategy3 (strip_code_fences (pyStrip s)) with
        | some v => exact parseStrategy3_isObj _ v h3
        | none => rfl
  · intro s days h
    simp only [parse_itinerary_response]
    rw [h.1, h.2.1, h.2.2]
  · intro days
    refine ⟨rfl, ?_, ?_⟩
    · simp [default_itinerary, Json.members, List.map_map, Function.comp]
    · intro kv hkv
      simp only [default_itinerary, Json.members, List.mem_map] at hkv
      obtain ⟨d, _, rfl⟩ := hkv
      exact ⟨rfl, rfl⟩

/-- Witness for C3 at a concrete input: plain prose with no braces defeats
    all three strategies and yields the default two-day shape. -/
theorem claim_C3_garbage_fallback_witness :
    parse_strategies_fail "hello world" ∧
    parse_itinerary_response "hello world" 2 = default_itinerary 2 :=
  ⟨⟨rfl, rfl, rfl⟩,
   claim_C3_garbage_fallback.2.1 "hello world" 2 ⟨rfl, rfl, rfl⟩⟩

/-! ## C9: parser tolerance of wrapping -/

/-- `s` is exactly the text of one JSON object with members `members`:
    `raw_decode` consumes all of `s` (nothing before or after), and the
    text is brace-delimited. -/
def ExactJsonObjectText (s : String) (members : List (String × Json)) : Prop :=
  rawDecode s = Option.some (.obj members, "") ∧
  s.toList.head? = Option.some '{' ∧
  s.toList.getLast? = Option.some '}'

theorem dropWhile_all_append (p : Char → Bool) (w l : List Char)
    (hw : ∀ c ∈ w, p c = true) :
    List.dropWhile p (w ++ l) = List.dropWhile p l := by
  induction w with
  | nil => rfl
  | cons c t ih =>
    simp only [List.cons_append, List.dropWhile_cons, hw c (by simp), if_true]
    exact ih (fun x hx => hw x (by simp [hx]))

theorem dropWhile_head_false (p : Char → Bool) (c : Char) (l : List Char)
    (hc : p c = false) : List.dropWhile p (c :: l) = c :: l := by
  simp [List.dropWhile_cons, hc]

theorem pyStripL_ws_wrap (w1 w2 cs : List Char)
    (hw1 : ∀ c ∈ w1, isPyWs c = true) (hw2 : ∀ c ∈ w2, isPyWs c = true)
    (hne : cs ≠ [])
    (hh : ∀ c, cs.head? = Option.some c → isPyWs c = false)
    (hl : ∀ c, cs.getLast? = Option.some c → isPyWs c = false) :
    pyStripL (w1 ++ (cs ++ w2)) = cs := by
  unfold pyStripL
  rw [dropWhile_all_append _ w1 _ hw1]
  obtain ⟨c, cs', rfl⟩ := List.exists_cons_of_ne_nil hne
  have hc : isPyWs c = false := hh c rfl
  rw [List.cons_append, dropWhile_head_false _ _ _ hc, ← List.cons_append,
    List.reverse_append]
  rw [dropWhile_all_append _ _ _ (fun x hx => hw2 x (List.mem_reverse.mp hx))]
  have hrne : (c :: cs').reverse ≠ [] := by simp
  obtain ⟨d, ds, hds⟩ := List.exists_cons_of_ne_nil hrne
  have hd : isPyWs d = false := by
    apply hl
    rw [← List.head?_reverse, hds]
    rfl
  rw [hds, dropWhile_head_false _ _ _ hd, ← hds, List.reverse_reverse]

theorem pyStripL_id (cs : List Char) (hne : cs ≠ [])
    (hh : ∀ c, cs.head? = Option.some c → isPyWs c = false)
    (hl : ∀ c, cs.getLast? = Option.some c → isPyWs c = false) :
    pyStripL cs = cs := by
  have := pyStripL_ws_wrap [] [] cs (by simp) (by simp) hne hh hl
  simpa using this

theorem fenceLead_head_nonfence (c : Char) (cs' : List Char)
    (hws : isPyWs c = false) (hbt : c ≠ '\x60') :
    fenceLead (c :: cs') = c :: cs' := by
  unfold fenceLead
  rw [dropWhile_head_false _ _ _ hws]
  split
  · rename_i t1 heq
    injection heq with h1 _
    exact absurd h1 hbt
  · rfl

theorem fenceTrail_last_nonfence (cs : List Char) (c : Char)
    (hlast : cs.getLast? = Option.some c)
    (hws : isPyWs c = false) (hbt : c ≠ '\x60') :
    fenceTrail cs = cs := by
  unfold fenceTrail
  have hrne : cs.reverse ≠ [] := by
    intro h
    rw [← List.head?_reverse, h] at hlast
    simp at hlast
  obtain ⟨d, ds, hds⟩ := List.exists_cons_of_ne_nil hrne
  have hdc : d = c := by
    have := List.head?_reverse cs
    rw [hds, hlast] at this
    simpa using this
  subst hdc
  rw [hds, dropWhile_head_false _ _ _ hws]
  split
  · rename_i t1 heq
    injection heq with h1 _
    exact absurd h1 hbt
  · rfl

theorem strip_code_fences_id_of_braces (s : String)
    (hh : s.toList.head? = Option.some '{')
    (hl : s.toList.getLast? = Option.some '}') :
    strip_code_fences s = s := by
  have hne : s ≠ "" := by
    intro h
    rw [h] at hh
    simp at hh
  have hlne : s.toList ≠ [] := by
    intro h
    rw [h] at hh
    simp at hh
  obtain ⟨c, cs', hcs⟩ := List.exists_cons_of_ne_nil hlne
  have hc : c = '{' := by
    rw [hcs] at hh
    simpa using hh
  subst hc
  unfold strip_code_fences
  rw [if_neg hne, hcs, fenceLead_head_nonfence _ _ (by decide) (by decide), ← hcs,
    fenceTrail_last_nonfence s.toList '}' hl (by decide) (by decide),
    pyStripL_id s.toList hlne
      (fun c hc => by rw [hh] at hc; cases hc; decide)
      (fun c hc => by rw [hl] at hc; cases hc; decide)]
  rfl

theorem pyLoads_of_exact (s : String) (members : List (String × Json))
    (h : ExactJsonObjectText s members) :
    pyLoads s = Option.some (.obj members) := by
  obtain ⟨hraw, hh, _⟩ := h
  have hskip : skipWs s.toList = s.toList := by
    have hlne : s.toList ≠ [] := by
      intro hx
      rw [hx] at hh
      simp at hh
    obtain ⟨c, cs', hcs⟩ := List.exists_cons_of_ne_nil hlne
    have hc : c = '{' := by
      rw [hcs] at hh
      simpa using hh
    subst hc
    rw [hcs]
    exact dropWhile_head_false _ _ _ (by decide)
  unfold rawDecode at hraw
  unfold pyLoads
  rw [hskip]
  cases hp : parseValueF (s.length + 2) s.toList with
  | none => rw [hp] at hraw; simp at hraw
  | some pr =>
    rw [hp] at hraw
    obtain ⟨v, rest⟩ := pr
    simp only [Option.some.injEq, Prod.mk.injEq] at hraw
    obtain ⟨hv, hrest⟩ := hraw
    have hrest0 : rest = [] := congrArg String.data hrest
    subst hv
    subst hrest0
    rfl

theorem parseStrategy1_of_exact (s : String) (members : List (String × Json))
    (h : ExactJsonObjectText s members) :
    parseStrategy1 s = Option.some (.obj members) := by
  unfold parseStrategy1
  rw [pyLoads_of_exact s members h]
  rfl

theorem fenceLead_fence (w4 S w5 : List Char)
    (hw4 : ∀ c ∈ w4, isPyWs c = true)
    (hSne : S ≠ [])
    (hS : ∀ c, S.head? = Option.some c → isPyWs c = false) :
    fenceLead ('\x60' :: '\x60' :: '\x60' :: 'j' :: 's' :: 'o' :: 'n' ::
        (w4 ++ (S ++ (w5 ++ ['\x60', '\x60', '\x60'])))) =
      S ++ (w5 ++ ['\x60', '\x60', '\x60']) := by
  show List.dropWhile isPyWs (w4 ++ (S ++ (w5 ++ ['\x60', '\x60', '\x60'])))
      = S ++ (w5 ++ ['\x60', '\x60', '\x60'])
  rw [dropWhile_all_append _ _ _ hw4]
  obtain ⟨c, S', rfl⟩ := List.exists_cons_of_ne_nil hSne
  have hc : isPyWs c = false := hS c rfl
  rw [List.cons_append, dropWhile_head_false _ _ _ hc, ← List.cons_append]

theorem fenceTrail_fence (S w5 : List Char)
    (hw5 : ∀ c ∈ w5, isPyWs c = true)
    (hSne : S ≠ [])
    (hl : ∀ c, S.getLast? = Option.some c → isPyWs c = false) :
    fenceTrail (S ++ (w5 ++ ['\x60', '\x60', '\x60'])) = S := by
  have h1 : (S ++ (w5 ++ ['\x60', '\x60', '\x60'])).reverse.dropWhile isPyWs
      = '\x60' :: '\x60' :: '\x60' :: (w5.reverse ++ S.reverse) := by
    rw [List.reverse_append, List.reverse_append]
    show List.dropWhile isPyWs
        ('\x60' :: (('\x60' :: '\x60' :: w5.reverse) ++ S.reverse)) = _
    rw [dropWhile_head_false _ _ _ (by decide)]
    rfl
  unfold fenceTrail
  rw [h1]
  show (List.dropWhile isPyWs (w5.reverse ++ S.reverse)).reverse = S
  rw [dropWhile_all_append _ _ _ (fun x hx => hw5 x (List.mem_reverse.mp hx))]
  have hrne : S.reverse ≠ [] := by simpa using hSne
  obtain ⟨d, ds, hds⟩ := List.exists_cons_of_ne_nil hrne
  have hd : isPyWs d = false := hl d (by rw [← List.head?_reverse, hds]; rfl)
  rw [hds, dropWhile_head_false _ _ _ hd, ← hds, List.reverse_reverse]

/-- C9 amended: for a string `s` that is exactly the text of a JSON
    object `O`, the parser recovers exactly `O` both under arbitrary
    leading/trailing whitespace and under a single Markdown
    ```` ```json ```` code fence (with arbitrary whitespace around the
    fence markers).  (Arbitrary leading prose is NOT tolerated in
    general: strategy 2 returns the first decodable object, see the
    counterexample.) -/
theorem claim_C9_wrap_tolerance (s : String) (members : List (String × Json))
    (h : ExactJsonObjectText s members) (days : Nat)
    (w1 w2 w3 w4 w5 w6 : String)
    (hw1 : ∀ c ∈ w1.toList, isPyWs c = true)
    (hw2 : ∀ c ∈ w2.toList, isPyWs c = true)
    (hw3 : ∀ c ∈ w3.toList, isPyWs c = true)
    (hw4 : ∀ c ∈ w4.toList, isPyWs c = true)
    (hw5 : ∀ c ∈ w5.toList, isPyWs c = true)
    (hw6 : ∀ c ∈ w6.toList, isPyWs c = true) :
    parse_itinerary_response (w1 ++ s ++ w2) days = .obj members ∧
    parse_itinerary_response (w3 ++ "```json" ++ w4 ++ s ++ w5 ++ "```" ++ w6) days =
      .obj members := by
  have hlne : s.toList ≠ [] := by
    intro hx
    have := h.2.1
    rw [hx] at this
    simp at this
  have hhead : ∀ c, s.toList.head? = Option.some c → isPyWs c = false := by
    intro c hc
    rw [h.2.1] at hc
    cases hc
    decide
  have hlast : ∀ c, s.toList.getLast? = Option.some c → isPyWs c = false := by
    intro c hc
    rw [h.2.2] at hc
    cases hc
    decide
  constructor
  · have h1 : pyStrip (w1 ++ s ++ w2) = s := by
      show (pyStripL ((w1 ++ s ++ w2).toList)).asString = s
      have hx : (w1 ++ s ++ w2).toList = w1.toList ++ (s.toList ++ w2.toList) := by
        show (w1.toList ++ s.toList) ++ w2.toList = _
        rw [List.append_assoc]
      rw [hx, pyStripL_ws_wrap _ _ _ hw1 hw2 hlne hhead hlast]
      rfl
    have hstr : strip_code_fences (pyStrip (w1 ++ s ++ w2)) = s := by
      rw [h1]
      exact strip_code_fences_id_of_braces s h.2.1 h.2.2
    simp only [parse_itinerary_response]
    rw [hstr, parseStrategy1_of_exact s members h]
  · have hCS : ('\x60' :: '\x60' :: '\x60' :: 'j' :: 's' :: 'o' :: 'n' ::
        (w4.toList ++ (s.toList ++ (w5.toList ++ ['\x60', '\x60', '\x60'])))) =
        ('\x60' :: '\x60' :: '\x60' :: 'j' :: 's' :: 'o' :: 'n' ::
          (w4.toList ++ (s.toList ++ w5.toList))) ++ ['\x60', '\x60', '\x60'] := by
      simp [List.append_assoc]
    have hCSlastval : ('\x60' :: '\x60' :: '\x60' :: 'j' :: 's' :: 'o' :: 'n' ::
        (w4.toList ++ (s.toList ++ (w5.toList ++ ['\x60', '\x60', '\x60'])))).getLast? =
        Option.some '\x60' := by
      rw [hCS, List.getLast?_append]
      rfl
    have hx : (w3 ++ "```json" ++ w4 ++ s ++ w5 ++ "```" ++ w6).toList =
        w3.toList ++ (('\x60' :: '\x60' :: '\x60' :: 'j' :: 's' :: 'o' :: 'n' ::
          (w4.toList ++ (s.toList ++ (w5.toList ++ ['\x60', '\x60', '\x60'])))) ++
          w6.toList) := by
      show (((((w3.toList ++ ['\x60', '\x60', '\x60', 'j', 's', 'o', 'n']) ++ w4.toList)
          ++ s.toList) ++ w5.toList) ++ ['\x60', '\x60', '\x60']) ++ w6.toList = _
      simp [List.append_assoc]
    have h2 : pyStrip (w3 ++ "```json" ++ w4 ++ s ++ w5 ++ "```" ++ w6) =
        List.asString ('\x60' :: '\x60' :: '\x60' :: 'j' :: 's' :: 'o' :: 'n' ::
          (w4.toList ++ (s.toList ++ (w5.toList ++ ['\x60', '\x60', '\x60'])))) := by
      show (pyStripL ((w3 ++ "```json" ++ w4 ++ s ++ w5 ++ "```" ++ w6).toList)).asString = _
      rw [hx, pyStripL_ws_wrap _ _ _ hw3 hw6 (by simp)
        (fun c hc => by cases hc; decide)
        (fun c hc => by rw [hCSlastval] at hc; cases hc; decide)]
    have h3 : strip_code_fences (List.asString ('\x60' :: '\x60' :: '\x60' :: 'j' :: 's' ::
        'o' :: 'n' :: (w4.toList ++ (s.toList ++ (w5.toList ++ ['\x60', '\x60', '\x60']))))) =
        s := by
      unfold strip_code_fences
      rw [if_neg (by
        intro hx0
        have : ('\x60' :: '\x60' :: '\x60' :: 'j' :: 's' :: 'o' :: 'n' ::
            (w4.toList ++ (s.toList ++ (w5.toList ++ ['\x60', '\x60', '\x60'])))) =
            ([] : List Char) := congrArg String.data hx0
        simp at this)]
      show (pyStripL (fenceTrail (fenceLead ('\x60' :: '\x60' :: '\x60' :: 'j' :: 's' ::
        'o' :: 'n' :: (w4.toList ++ (s.toList ++ (w5.toList ++
          ['\x60', '\x60', '\x60']))))))).asString = s
      rw [fenceLead_fence w4.toList s.toList w5.toList hw4 hlne hhead,
        fenceTrail_fence s.toList w5.toList hw5 hlne hlast,
        pyStripL_id s.toList hlne hhead hlast]
      rfl
    simp only [parse_itinerary_response]
    rw [h2, h3, parseStrategy1_of_exact s members h]

/-- The inner JSON object text of the C9 counterexample and witness. -/
def c9_inner : String := "\x7b\"a\": \"b\"\x7d"

/-- C9 counterexample: `c9_inner` is exactly the text of the JSON object
    `{"a": "b"}`, but wrapping it with the leading prose `"{} "` makes the
    parser return the empty object found first by the brace scan, not the
    original object — so arbitrary leading prose is not tolerated. -/
theorem claim_C9_counterexample :
    ExactJsonObjectText c9_inner [("a", Json.str "b")] ∧
    parse_itinerary_response ("\x7b\x7d " ++ c9_inner) 1 = Json.obj [] ∧
    Json.obj ([] : List (String × Json)) ≠ Json.obj [("a", Json.str "b")] := by
  refine ⟨⟨rfl, rfl, rfl⟩, rfl, by simp⟩

/-- Witness for C9-amended at concrete inputs. -/
theorem claim_C9_wrap_tolerance_witness :
    ExactJsonObjectText c9_inner [("a", Json.str "b")] ∧
    parse_itinerary_response ("  " ++ c9_inner ++ "\n") 3 =
      Json.obj [("a", Json.str "b")] ∧
    parse_itinerary_response (" " ++ "```json" ++ "\n" ++ c9_inner ++ "\n" ++ "```" ++ " ") 3 =
      Json.obj [("a", Json.str "b")] :=
  ⟨⟨rfl, rfl, rfl⟩,
   (claim_C9_wrap_tolerance c9_inner [("a", Json.str "b")] ⟨rfl, rfl, rfl⟩ 3
      "  " "\n" " " "\n" "\n" " "
      (by decide) (by decide) (by decide) (by decide) (by decide) (by decide)).1,
   (claim_C9_wrap_tolerance c9_inner [("a", Json.str "b")] ⟨rfl, rfl, rfl⟩ 3
      "  " "\n" " " "\n" "\n" " "
      (by decide) (by decide) (by decide) (by decide) (by decide) (by decide)).2⟩

end TravelAI
